import Mathlib

/-!
Verification development for the ESP32_AI_Connect library (C++ sources under
src/).  The library talks to three vendor chat-completion APIs (OpenAI,
Google Gemini, Anthropic Claude) through per-vendor request builders and
response parsers built on ArduinoJson, plus an orchestrator class
(ESP32_AI_Connect.cpp) that drives plain chat, tool-calling chat and a
streaming session.

The development shallowly embeds the relevant code:

* JSON documents (ArduinoJson `JsonDocument` / `JsonVariant`) are modelled by
  the inductive `JVal`; member assignment `doc[k] = v`, member lookup,
  `to<JsonObject>()`, `remove`, `clear` are modelled by executable functions
  whose semantics follow ArduinoJson v7 (assignment into a document whose
  root is neither null nor an object is a silent no-op; a fresh or cleared
  document has a null root that becomes an object on the first member write).
* `deserializeJson` (an external library) is modelled by the executable
  recursive-descent parser `parseJson`; `serializeJson` by `serializeJson`
  (minified output, as ArduinoJson produces).
* Arduino `String` helpers (`indexOf`, `substring`, `trim`, `startsWith`,
  `equalsIgnoreCase`, `toUpperCase`) are modelled over `List Char`.
* C++ `float temperature` is modelled by `Int`: every use in the embedded
  code is either the sign test `temperature >= 0` or an opaque copy into the
  JSON body, so only an ordered carrier is needed.
* The orchestrator class state is the structure `ESP32State`; the virtual
  platform-handler dispatch is a record of functions (`Handler`); the HTTP
  transport (HTTPClient/WiFiClientSecure, an external collaborator) is a
  record (`Transport`) supplying the status code, response payload and the
  stream of SSE lines.  The FreeRTOS mutex is modelled as uncontended
  (sequential semantics); wall-clock timeouts are not modelled, a streaming
  read loop ends at stream end, completion, parse error or callback stop.
-/

/-- Model of an ArduinoJson document/variant: a JSON value. -/
inductive JVal where
  | null : JVal
  | bool : Bool → JVal
  | num : Int → JVal
  | str : String → JVal
  | arr : List JVal → JVal
  | obj : List (String × JVal) → JVal

namespace JVal

/-- Lookup of a key in an object member list (first match wins, as in
ArduinoJson). -/
def jlook : List (String × JVal) → String → Option JVal
  | [], _ => none
  | (k0, v0) :: fs, k => if k0 = k then some v0 else jlook fs k

/-- Member read `doc[k]`: null when the key is absent or the value is not an
object (ArduinoJson yields a null variant in those cases). -/
def get (v : JVal) (k : String) : JVal :=
  match v with
  | .obj fs => (jlook fs k).getD .null
  | _ => .null

/-- Replace the first binding of `k` in place, else append, as ArduinoJson
member assignment does. -/
def setPair : List (String × JVal) → String → JVal → List (String × JVal)
  | [], k, x => [(k, x)]
  | (k0, v0) :: fs, k, x => if k0 = k then (k0, x) :: fs else (k0, v0) :: setPair fs k x

/-- Member write `doc[k] = x`: a null root becomes a one-member object; on an
object the binding is replaced in place or appended; on any other root the
write silently fails (ArduinoJson v7 semantics). -/
def set (v : JVal) (k : String) (x : JVal) : JVal :=
  match v with
  | .null => .obj [(k, x)]
  | .obj fs => .obj (setPair fs k x)
  | other => other

/-- Remove the first binding of a key. -/
def removePair : List (String × JVal) → String → List (String × JVal)
  | [], _ => []
  | (k0, v0) :: fs, k => if k0 = k then fs else (k0, v0) :: removePair fs k

/-- Member removal `doc.remove(k)`. -/
def removeKey (v : JVal) (k : String) : JVal :=
  match v with
  | .obj fs => .obj (removePair fs k)
  | other => other

/-- Test `variant.isNull()`. -/
def isNull : JVal → Bool
  | .null => true
  | _ => false

/-- Test `variant.is<JsonArray>()`. -/
def isArr : JVal → Bool
  | .arr _ => true
  | _ => false

/-- Test `variant.is<JsonObject>()`. -/
def isObj : JVal → Bool
  | .obj _ => true
  | _ => false

/-- Test `variant.is<const char*>()`: true exactly for strings. -/
def isStr : JVal → Bool
  | .str _ => true
  | _ => false

/-- Iterating a variant `as<JsonObject>`: the member list, empty when the
value is not an object. -/
def asObjPairs : JVal → List (String × JVal)
  | .obj fs => fs
  | _ => []

/-- Iterating a variant `as<JsonArray>`: the element list, empty when the
value is not an array. -/
def asArrItems : JVal → List JVal
  | .arr xs => xs
  | _ => []

/-- Array index `arr[i]`: null when out of range or not an array. -/
def atIdx (v : JVal) (i : Nat) : JVal :=
  (v.asArrItems.drop i).headD .null

/-- Test `obj.containsKey(k)` (false on non-objects, as the cast to
JsonObject yields a null object). -/
def hasKey (v : JVal) (k : String) : Bool :=
  (jlook v.asObjPairs k).isSome

/-- Size `arr.size()` of an array variant (0 otherwise). -/
def arrSize (v : JVal) : Nat := v.asArrItems.length

/-- Conversion `variant.as<String>()` on scalars, following ArduinoJson:
strings verbatim, numbers and booleans printed, null prints "null",
containers yield the empty string. -/
def jvalAsString : JVal → String
  | .str s => s
  | .num n => toString n
  | .bool true => "true"
  | .bool false => "false"
  | .null => "null"
  | _ => ""

/-- Comparison `variant == "literal"`: true exactly when the variant holds
that string. -/
def eqStr (v : JVal) (s : String) : Bool :=
  match v with
  | .str t => t = s
  | _ => false

/-- Roots on which a member write succeeds (null or object). -/
def memberable : JVal → Bool
  | .null => true
  | .obj _ => true
  | _ => false

/-- Write into a member object: `doc[k1][k2] = x` through a JsonObject
reference that is re-read from the document (reference semantics). -/
def setIn (v : JVal) (k1 k2 : String) (x : JVal) : JVal :=
  v.set k1 ((v.get k1).set k2 x)

end JVal

/-- Copy loop `for kv : src do dst[kv.key()] = kv.value()` starting from a
given destination (ArduinoJson assignment deep-copies the value). -/
def copyPairsInto (o : JVal) (ps : List (String × JVal)) : JVal :=
  ps.foldl (fun o kv => o.set kv.1 kv.2) o

/-- Copy loop that special-cases one nesting level of objects, as the
tool-choice copying code does: an object value is rebuilt member by member,
anything else is assigned directly
(AI_API_OpenAI.cpp:293-304, AI_API_Claude.cpp:268-279). -/
def copyToolChoicePairs (ps : List (String × JVal)) : JVal :=
  ps.foldl (fun o kv =>
    match kv.2 with
    | .obj sub => o.set kv.1 (copyPairsInto (.obj []) sub)
    | v => o.set kv.1 v) (.obj [])

/-- One step of the tool-parameter copy loop: an object value is rebuilt
member by member, an array value is rebuilt item by item, anything else is
assigned directly. -/
def copyParamsStep (o : JVal) (kv : String × JVal) : JVal :=
  match kv.2 with
  | .obj sub => o.set kv.1 (copyPairsInto (.obj []) sub)
  | .arr items => o.set kv.1 (.arr items)
  | v => o.set kv.1 v

/-- Copy loop that special-cases one nesting level of objects and arrays, as
the OpenAI tool-parameter copying code does (AI_API_OpenAI.cpp:360-378) and
the Gemini copy-through branch (AI_API_Gemini.cpp:390-404). -/
def copyParamsLoop (ps : List (String × JVal)) : JVal :=
  ps.foldl copyParamsStep (.obj [])

/-- The simple tool form \x7bname, description, parameters\x7d described in the
library README: the input family over which tool normalization is compared. -/
def simpleToolForm (name desc : String) (pfs : List (String × JVal)) : JVal :=
  JVal.obj [("name", .str name), ("description", .str desc), ("parameters", .obj pfs)]

/-- The OpenAI-wrapped tool form
\x7btype: "function", function: \x7bname, description, parameters\x7d\x7d. -/
def openaiWrappedToolForm (name desc : String) (pfs : List (String × JVal)) : JVal :=
  JVal.obj [("type", .str "function"), ("function", simpleToolForm name desc pfs)]

/-- An object value has no duplicate member keys (non-objects pass). -/
def subKeysOk : JVal → Bool
  | .obj sub => decide ((sub.map Prod.fst).Nodup)
  | _ => true

/-- Well-formedness of a parameters-schema member list as ArduinoJson would
produce it from a JSON text: no duplicate keys at the top level nor inside any
immediate object member (the levels the copy loops special-case). -/
def toolParamsWf (pfs : List (String × JVal)) : Bool :=
  decide ((pfs.map Prod.fst).Nodup) && pfs.all (fun kv => subKeysOk kv.2)

/-- A concrete parameters schema used by witness theorems. -/
def demoParamsList : List (String × JVal) :=
  [("type", .str "object"),
   ("properties", .obj [("unit", .obj [("type", .str "string")])])]

/-- Escape one character for minified JSON output. -/
def escapeJsonChar (c : Char) : String :=
  if c = '\"' then "\\\""
  else if c = '\\' then "\\\\"
  else if c = '\n' then "\\n"
  else if c = '\r' then "\\r"
  else if c = '\t' then "\\t"
  else String.singleton c

/-- Escape a string for minified JSON output. -/
def escapeJson (s : String) : String :=
  String.join (s.data.map escapeJsonChar)

mutual

/-- Model of `serializeJson`: minified JSON output. -/
def serializeJson : JVal → String
  | .null => "null"
  | .bool true => "true"
  | .bool false => "false"
  | .num n => toString n
  | .str s => "\"" ++ escapeJson s ++ "\""
  | .arr xs => "[" ++ serializeList xs ++ "]"
  | .obj fs => "\x7b" ++ serializeFields fs ++ "\x7d"

/-- Serialize array elements, comma separated. -/
def serializeList : List JVal → String
  | [] => ""
  | [x] => serializeJson x
  | x :: y :: xs => serializeJson x ++ "," ++ serializeList (y :: xs)

/-- Serialize object members, comma separated. -/
def serializeFields : List (String × JVal) → String
  | [] => ""
  | [(k, v)] => "\"" ++ escapeJson k ++ "\":" ++ serializeJson v
  | (k, v) :: g :: fs =>
      "\"" ++ escapeJson k ++ "\":" ++ serializeJson v ++ "," ++ serializeFields (g :: fs)

end

/-- JSON whitespace test. -/
def isJsonWs (c : Char) : Bool :=
  c = ' ' || c = '\t' || c = '\n' || c = '\r'

/-- Skip JSON whitespace. -/
def skipWs : List Char → List Char
  | [] => []
  | c :: cs => if isJsonWs c then skipWs cs else c :: cs

/-- Parse the body of a JSON string literal after the opening quote,
handling the standard single-character escapes. -/
def parseStringBody : Nat → List Char → List Char → Option (String × List Char)
  | 0, _, _ => none
  | _, [], _ => none
  | fuel + 1, c :: rest, acc =>
    if c = '\"' then some (String.mk acc.reverse, rest)
    else if c = '\\' then
      match rest with
      | [] => none
      | e :: rest2 =>
        let dec : Option Char :=
          if e = '\"' then some '\"'
          else if e = '\\' then some '\\'
          else if e = '/' then some '/'
          else if e = 'b' then some (Char.ofNat 8)
          else if e = 'f' then some (Char.ofNat 12)
          else if e = 'n' then some '\n'
          else if e = 'r' then some '\r'
          else if e = 't' then some '\t'
          else none
        match dec with
        | some d => parseStringBody fuel rest2 (d :: acc)
        | none => none
    else parseStringBody fuel rest (c :: acc)

/-- Split a leading run of decimal digits. -/
def takeDigits : List Char → List Char × List Char
  | [] => ([], [])
  | c :: cs =>
    if c.isDigit then
      let (ds, rest) := takeDigits cs
      (c :: ds, rest)
    else ([], c :: cs)

/-- Digits to a natural number. -/
def digitsToNat (ds : List Char) : Nat :=
  ds.foldl (fun acc c => acc * 10 + (c.toNat - 48)) 0

mutual

/-- Model of the external `deserializeJson` value parser (fuel-indexed
recursive descent over the remaining characters). -/
def parseJsonVal : Nat → List Char → Option (JVal × List Char)
  | 0, _ => none
  | fuel + 1, cs =>
    match skipWs cs with
    | 'n' :: 'u' :: 'l' :: 'l' :: rest => some (.null, rest)
    | 't' :: 'r' :: 'u' :: 'e' :: rest => some (.bool true, rest)
    | 'f' :: 'a' :: 'l' :: 's' :: 'e' :: rest => some (.bool false, rest)
    | '\"' :: rest =>
        match parseStringBody (fuel + 1) rest [] with
        | some (s, r) => some (.str s, r)
        | none => none
    | '[' :: rest =>
        match skipWs rest with
        | ']' :: r => some (.arr [], r)
        | cs2 => parseArrElems fuel cs2
    | '\x7b' :: rest =>
        match skipWs rest with
        | '\x7d' :: r => some (.obj [], r)
        | cs2 => parseObjMembers fuel cs2
    | '-' :: rest =>
        let (ds, r) := takeDigits rest
        if ds.isEmpty then none else some (.num (-(digitsToNat ds : Int)), r)
    | c :: rest =>
        if c.isDigit then
          let (ds, r) := takeDigits (c :: rest)
          some (.num (digitsToNat ds : Int), r)
        else none
    | [] => none

/-- Parse the elements of a non-empty array (positioned at the first
element). -/
def parseArrElems : Nat → List Char → Option (JVal × List Char)
  | 0, _ => none
  | fuel + 1, cs =>
    match parseJsonVal fuel cs with
    | none => none
    | some (v, rest) =>
      match skipWs rest with
      | ',' :: rest2 =>
          match parseArrElems fuel (skipWs rest2) with
          | some (.arr vs, r) => some (.arr (v :: vs), r)
          | _ => none
      | ']' :: rest2 => some (.arr [v], rest2)
      | _ => none

/-- Parse the members of a non-empty object (positioned at the first key). -/
def parseObjMembers : Nat → List Char → Option (JVal × List Char)
  | 0, _ => none
  | fuel + 1, cs =>
    match cs with
    | '\"' :: rest =>
      match parseStringBody (fuel + 1) rest [] with
      | none => none
      | some (k, r1) =>
        match skipWs r1 with
        | ':' :: r2 =>
          match parseJsonVal fuel (skipWs r2) with
          | none => none
          | some (v, r3) =>
            match skipWs r3 with
            | ',' :: r4 =>
                match parseObjMembers fuel (skipWs r4) with
                | some (.obj fs, r5) => some (.obj ((k, v) :: fs), r5)
                | _ => none
            | '\x7d' :: r4 => some (.obj [(k, v)], r4)
            | _ => none
        | _ => none
    | _ => none

end

/-- Model of `deserializeJson` over a whole input string: the parsed value,
or none on a syntax error. -/
def parseJson (s : String) : Option JVal :=
  match parseJsonVal (s.length * 4 + 16) s.data with
  | some (v, rest) => if (skipWs rest).isEmpty then some v else none
  | none => none

/-- The member list of the parsed custom-parameters JSON: empty when the
string does not parse or is not an object (iterating `as<JsonObject>` of a
non-object yields nothing). -/
def customPairs (customParams : String) : List (String × JVal) :=
  match parseJson customParams with
  | some v => v.asObjPairs
  | none => []

/-- Arduino `isspace` test used by `String::trim`. -/
def isArduinoSpace (c : Char) : Bool :=
  c = ' ' || c = '\t' || c = '\n' || c = '\x0b' || c = '\x0c' || c = '\r'

/-- Model of Arduino `String::trim` (strips whitespace at both ends). -/
def strTrim (s : String) : String :=
  String.mk (((s.data.dropWhile isArduinoSpace).reverse.dropWhile isArduinoSpace).reverse)

/-- List prefix test over characters. -/
def listStartsWith : List Char → List Char → Bool
  | [], _ => true
  | _ :: _, [] => false
  | a :: as, b :: bs => a = b && listStartsWith as bs

/-- First index at which `needle` occurs. -/
def charsIndexOf (needle : List Char) : List Char → Option Nat
  | [] => if needle.isEmpty then some 0 else none
  | c :: rest =>
    if listStartsWith needle (c :: rest) then some 0
    else (charsIndexOf needle rest).map (· + 1)

/-- Model of Arduino `String::indexOf` (-1 when absent). -/
def strIndexOf (s sub : String) : Int :=
  match charsIndexOf sub.data s.data with
  | some n => (n : Int)
  | none => -1

/-- Substring containment, used to state the error-message claims. -/
def strContains (s sub : String) : Bool :=
  (charsIndexOf sub.data s.data).isSome

/-- Model of Arduino `String::substring(from)` (suffix from an index). -/
def substringFrom (s : String) (n : Nat) : String :=
  String.mk (s.data.drop n)

/-- Model of Arduino `String::startsWith`. -/
def strStartsWith (s pre : String) : Bool :=
  listStartsWith pre.data s.data

/-- ASCII upper-casing of one character. -/
def upperChar (c : Char) : Char :=
  if 'a' ≤ c ∧ c ≤ 'z' then Char.ofNat (c.toNat - 32) else c

/-- ASCII lower-casing of one character. -/
def lowerChar (c : Char) : Char :=
  if 'A' ≤ c ∧ c ≤ 'Z' then Char.ofNat (c.toNat + 32) else c

/-- Model of Arduino `String::toUpperCase` (applied to a copy). -/
def upperAscii (s : String) : String :=
  String.mk (s.data.map upperChar)

/-- Model of Arduino `String::equalsIgnoreCase`. -/
def equalsIgnoreCase (a b : String) : Bool :=
  a.data.map lowerChar == b.data.map lowerChar

/-- Per-handler mutable state (base class AI_API_Platform_Handler, not under
src/): the finish reason and token count of the last parsed response,
cleared by `resetState()` at the start of every build/parse call. -/
structure HandlerState where
  lastFinishReason : String := ""
  lastTotalTokens : Int := 0

/-- One iteration of the OpenAI custom-parameter merge loop
(AI_API_OpenAI.cpp:39-56): every member except model and messages is copied
into the request document. -/
def openai_mergeStep (d : JVal) (kv : String × JVal) : JVal :=
  if kv.1 != "model" && kv.1 != "messages" then d.set kv.1 kv.2 else d

/-- One iteration of the OpenAI streaming custom-parameter merge loop
(AI_API_OpenAI.cpp:136-153): additionally skips `stream`. -/
def openai_streamMergeStep (d : JVal) (kv : String × JVal) : JVal :=
  if kv.1 != "model" && kv.1 != "messages" && kv.1 != "stream" then d.set kv.1 kv.2 else d

/-- One iteration of the Claude custom-parameter merge loop
(AI_API_Claude.cpp:37-54): skips model, messages and system. -/
def claude_mergeStep (d : JVal) (kv : String × JVal) : JVal :=
  if kv.1 != "model" && kv.1 != "messages" && kv.1 != "system" then d.set kv.1 kv.2 else d

/-- One iteration of the Claude streaming custom-parameter merge loop
(AI_API_Claude.cpp:744-761): additionally skips `stream`. -/
def claude_streamMergeStep (d : JVal) (kv : String × JVal) : JVal :=
  if kv.1 != "model" && kv.1 != "messages" && kv.1 != "system" && kv.1 != "stream" then
    d.set kv.1 kv.2 else d

/-- Embedding of AI_API_OpenAI_Handler::buildRequestBody
(AI_API_OpenAI.cpp:21-66).  The shared document is cleared first; the result
is the serialized body together with the final document contents. -/
def openai_buildRequestBody (modelName systemRole : String) (temperature maxTokens : Int)
    (userMessage : String) (_doc : JVal) (customParams : String) : String × JVal :=
  let doc := JVal.null
  let doc := doc.set "model" (.str modelName)
  let messages : List JVal :=
    (if systemRole.length > 0 then
      [JVal.obj [("role", .str "system"), ("content", .str systemRole)]] else [])
    ++ [JVal.obj [("role", .str "user"), ("content", .str userMessage)]]
  let doc := doc.set "messages" (.arr messages)
  let doc :=
    if customParams.length > 0 then
      (customPairs customParams).foldl openai_mergeStep doc
    else doc
  let doc := if temperature ≥ 0 then doc.set "temperature" (.num temperature) else doc
  let doc := if maxTokens > 0 then doc.set "max_completion_tokens" (.num maxTokens) else doc
  (serializeJson doc, doc)

/-- Embedding of AI_API_OpenAI_Handler::buildStreamRequestBody
(AI_API_OpenAI.cpp:116-162): like the plain builder but with `stream: true`
and `stream` excluded from the custom-parameter merge. -/
def openai_buildStreamRequestBody (modelName systemRole : String) (temperature maxTokens : Int)
    (userMessage : String) (_doc : JVal) (customParams : String) : String × JVal :=
  let doc := JVal.null
  let doc := doc.set "model" (.str modelName)
  let doc := doc.set "stream" (.bool true)
  let messages : List JVal :=
    (if systemRole.length > 0 then
      [JVal.obj [("role", .str "system"), ("content", .str systemRole)]] else [])
    ++ [JVal.obj [("role", .str "user"), ("content", .str userMessage)]]
  let doc := doc.set "messages" (.arr messages)
  let doc :=
    if customParams.length > 0 then
      (customPairs customParams).foldl openai_streamMergeStep doc
    else doc
  let doc := if temperature ≥ 0 then doc.set "temperature" (.num temperature) else doc
  let doc := if maxTokens > 0 then doc.set "max_completion_tokens" (.num maxTokens) else doc
  (serializeJson doc, doc)

/-- Keys that the Gemini builders route into the generationConfig object
(AI_API_Gemini.cpp:74-82). -/
def geminiGenConfigKeys : List String :=
  ["temperature", "topP", "topK", "maxOutputTokens", "candidateCount", "stopSequences",
   "responseMimeType", "responseSchema", "presencePenalty", "frequencyPenalty", "seed",
   "responseLogprobs", "logprobs", "enableEnhancedCivicAnswers", "speechConfig",
   "thinkingConfig", "mediaResolution"]

/-- Embedding of the Gemini custom-parameter merge loop
(AI_API_Gemini.cpp:60-98): generation-config keys go into a generationConfig
member (created fresh on the first such key, tracked by a local flag), other
keys go to the root unless excluded. -/
def gemini_customStep (excluded : List String) (acc : JVal × Bool)
    (kv : String × JVal) : JVal × Bool :=
  let doc := acc.1
  let hasGC := acc.2
  if geminiGenConfigKeys.contains kv.1 then
    let doc := if hasGC then doc else doc.set "generationConfig" (.obj [])
    (doc.setIn "generationConfig" kv.1 kv.2, true)
  else if excluded.contains kv.1 then (doc, hasGC)
  else (doc.set kv.1 kv.2, hasGC)

def gemini_customParamsFold (excluded : List String) (doc : JVal)
    (pairs : List (String × JVal)) : JVal :=
  (pairs.foldl (gemini_customStep excluded) (doc, false)).1

/-- Embedding of the explicit generation-config section shared by the Gemini
chat builders (AI_API_Gemini.cpp:100-126): if no generationConfig member
exists yet an empty one is created; explicit temperature and maxTokens are
then written into it (overriding custom parameters) while a configAdded flag
tracks whether anything was ever put there; an untouched empty
generationConfig is removed again. -/
def gemini_applyGenerationConfig (temperature maxTokens : Int) (doc0 : JVal) : JVal :=
  let configAdded0 := !(doc0.get "generationConfig").isNull
  let doc1 := if (doc0.get "generationConfig").isNull then
      doc0.set "generationConfig" (.obj []) else doc0
  let p1 := if temperature ≥ 0 then
      (doc1.setIn "generationConfig" "temperature" (.num temperature), true)
    else (doc1, configAdded0)
  let p2 := if maxTokens > 0 then
      (p1.1.setIn "generationConfig" "maxOutputTokens" (.num maxTokens), true)
    else p1
  if !p2.2 then p2.1.removeKey "generationConfig" else p2.1

/-- Embedding of AI_API_Gemini_Handler::buildRequestBody
(AI_API_Gemini.cpp:35-140). -/
def gemini_buildRequestBody (_modelName systemRole : String) (temperature maxTokens : Int)
    (userMessage : String) (_doc : JVal) (customParams : String) : String × JVal :=
  let doc := JVal.null
  let doc := if systemRole.length > 0 then
      doc.set "systemInstruction" (.obj [("parts", .arr [.obj [("text", .str systemRole)]])])
    else doc
  let doc := doc.set "contents" (.arr [.obj [("role", .str "user"),
      ("parts", .arr [.obj [("text", .str userMessage)]])]])
  let doc := if customParams.length > 0 then
      gemini_customParamsFold ["model", "contents", "systemInstruction"] doc
        (customPairs customParams)
    else doc
  let doc := gemini_applyGenerationConfig temperature maxTokens doc
  (serializeJson doc, doc)

/-- Embedding of AI_API_Gemini_Handler::buildStreamRequestBody
(AI_API_Gemini.cpp:943-1039): same shape as the plain builder (no `stream`
flag; Gemini streams via a different endpoint), with `stream` additionally
excluded from the custom-parameter merge. -/
def gemini_buildStreamRequestBody (_modelName systemRole : String) (temperature maxTokens : Int)
    (userMessage : String) (_doc : JVal) (customParams : String) : String × JVal :=
  let doc := JVal.null
  let doc := if systemRole.length > 0 then
      doc.set "systemInstruction" (.obj [("parts", .arr [.obj [("text", .str systemRole)]])])
    else doc
  let doc := doc.set "contents" (.arr [.obj [("role", .str "user"),
      ("parts", .arr [.obj [("text", .str userMessage)]])]])
  let doc := if customParams.length > 0 then
      gemini_customParamsFold ["model", "contents", "systemInstruction", "stream"] doc
        (customPairs customParams)
    else doc
  let doc := gemini_applyGenerationConfig temperature maxTokens doc
  (serializeJson doc, doc)

/-- Embedding of AI_API_Claude_Handler::buildRequestBody
(AI_API_Claude.cpp:29-86).  Unlike the OpenAI and Gemini builders this
function does NOT clear the shared document first: it writes into whatever
the document already holds. -/
def claude_buildRequestBody (modelName systemRole : String) (temperature maxTokens : Int)
    (userMessage : String) (doc0 : JVal) (customParams : String) : String × JVal :=
  let doc := doc0.set "model" (.str modelName)
  let doc := if customParams.length > 0 then
      (customPairs customParams).foldl claude_mergeStep doc
    else doc
  let doc := if temperature ≥ 0 then doc.set "temperature" (.num temperature) else doc
  let doc := doc.set "max_tokens" (.num (if maxTokens > 0 then maxTokens else 1024))
  let doc := if systemRole.length > 0 then doc.set "system" (.str systemRole) else doc
  let doc := doc.set "messages" (.arr [.obj [("role", .str "user"), ("content", .str userMessage)]])
  (serializeJson doc, doc)

/-- Embedding of AI_API_Claude_Handler::buildStreamRequestBody
(AI_API_Claude.cpp:731-793): adds `stream: true` and excludes `stream` from
the custom-parameter merge; like the plain Claude builder it does NOT clear
the shared document. -/
def claude_buildStreamRequestBody (modelName systemRole : String) (temperature maxTokens : Int)
    (userMessage : String) (doc0 : JVal) (customParams : String) : String × JVal :=
  let doc := doc0.set "model" (.str modelName)
  let doc := doc.set "stream" (.bool true)
  let doc := if customParams.length > 0 then
      (customPairs customParams).foldl claude_streamMergeStep doc
    else doc
  let doc := if temperature ≥ 0 then doc.set "temperature" (.num temperature) else doc
  let doc := doc.set "max_tokens" (.num (if maxTokens > 0 then maxTokens else 1024))
  let doc := if systemRole.length > 0 then doc.set "system" (.str systemRole) else doc
  let doc := doc.set "messages" (.arr [.obj [("role", .str "user"), ("content", .str userMessage)]])
  (serializeJson doc, doc)

/-- Embedding of the per-tool conversion performed inside
AI_API_Claude_Handler::buildToolCallsRequestBody (AI_API_Claude.cpp:193-237)
on one parsed tool definition: an OpenAI-wrapped tool (`type` and `function`
members both present) has its function fields lifted out, any other shape is
treated as the simple form; either way the parameters members are copied
into `input_schema`. -/
def claude_convertTool (toolDoc : JVal) : JVal :=
  if !(toolDoc.get "type").isNull && !(toolDoc.get "function").isNull then
    let fn := toolDoc.get "function"
    let inputSchema :=
      if (fn.get "parameters").isNull then JVal.obj []
      else copyPairsInto (.obj []) (fn.get "parameters").asObjPairs
    JVal.obj [("name", .str (JVal.jvalAsString (fn.get "name"))),
              ("description", .str (JVal.jvalAsString (fn.get "description"))),
              ("input_schema", inputSchema)]
  else
    let inputSchema :=
      if (toolDoc.get "parameters").isNull then JVal.obj []
      else copyPairsInto (.obj []) (toolDoc.get "parameters").asObjPairs
    JVal.obj ([("name", .str (JVal.jvalAsString (toolDoc.get "name")))]
      ++ (if (toolDoc.get "description").isNull then []
          else [("description", .str (JVal.jvalAsString (toolDoc.get "description")))])
      ++ [("input_schema", inputSchema)])

/-- Embedding of the Claude tools loop (AI_API_Claude.cpp:181-238): each tool
JSON string is parsed and converted; a parse error aborts the whole build
(the builder returns the empty string). -/
def claude_buildTools : List String → Option (List JVal)
  | [] => some []
  | t :: ts =>
    match parseJson t with
    | none => none
    | some toolDoc =>
      match claude_buildTools ts with
      | none => none
      | some rest => some (claude_convertTool toolDoc :: rest)

/-- Embedding of the Claude tool_choice block (AI_API_Claude.cpp:246-296):
the recognised literals auto/any/none become an object with a `type` field;
a JSON-object string is parsed and copied field by field; anything else is
wrapped as `type` verbatim (the source notes this will likely cause an API
error). -/
def claude_applyToolChoice (doc : JVal) (toolChoice : String) : JVal :=
  if toolChoice.length > 0 then
    let trimmedChoice := strTrim toolChoice
    if trimmedChoice == "auto" || trimmedChoice == "any" || trimmedChoice == "none" then
      doc.set "tool_choice" (.obj [("type", .str trimmedChoice)])
    else if strStartsWith trimmedChoice "\x7b" then
      match parseJson trimmedChoice with
      | some parsed => doc.set "tool_choice" (copyToolChoicePairs parsed.asObjPairs)
      | none => doc.set "tool_choice" (.obj [("type", .str trimmedChoice)])
    else
      doc.set "tool_choice" (.obj [("type", .str trimmedChoice)])
  else doc

/-- Embedding of AI_API_Claude_Handler::buildToolCallsRequestBody
(AI_API_Claude.cpp:152-309).  The shared document is cleared first; `none`
models the empty-string return on a tool JSON parse error. -/
def claude_buildToolCallsRequestBody (modelName : String) (toolsArray : List String)
    (systemMessage toolChoice : String) (maxTokens : Int) (userMessage : String)
    (_doc : JVal) : Option (String × JVal) :=
  let doc := JVal.null
  let doc := doc.set "model" (.str modelName)
  let doc := doc.set "max_tokens" (.num (if maxTokens > 0 then maxTokens else 1024))
  let doc := if systemMessage.length > 0 then doc.set "system" (.str systemMessage) else doc
  match claude_buildTools toolsArray with
  | none => none
  | some tools =>
    let doc := doc.set "tools" (.arr tools)
    let doc := doc.set "messages" (.arr [.obj [("role", .str "user"),
        ("content", .str userMessage)]])
    let doc := claude_applyToolChoice doc toolChoice
    some (serializeJson doc, doc)

/-- Embedding of the OpenAI tool_choice block (AI_API_OpenAI.cpp:272-319):
the recognised literals auto/none/required are set as bare strings; a
JSON-object string is parsed and copied field by field; anything else is set
as the bare string verbatim. -/
def openai_applyToolChoice (doc : JVal) (toolChoice : String) : JVal :=
  if toolChoice.length > 0 then
    let trimmedChoice := strTrim toolChoice
    if trimmedChoice == "auto" || trimmedChoice == "none" || trimmedChoice == "required" then
      doc.set "tool_choice" (.str trimmedChoice)
    else if strStartsWith trimmedChoice "\x7b" then
      match parseJson trimmedChoice with
      | some parsed => doc.set "tool_choice" (copyToolChoicePairs parsed.asObjPairs)
      | none => doc.set "tool_choice" (.str trimmedChoice)
    else doc.set "tool_choice" (.str trimmedChoice)
  else doc

/-- Embedding of the per-tool conversion inside
AI_API_OpenAI_Handler::buildToolCallsRequestBody (AI_API_OpenAI.cpp:335-408):
a tool already in OpenAI format is copied member by member; a simple-form
tool is wrapped as `type: "function"` with all its members copied into the
`function` object. -/
def openai_convertTool (tempDoc : JVal) : JVal :=
  if !(tempDoc.get "type").isNull && !(tempDoc.get "function").isNull then
    let srcFunction := tempDoc.get "function"
    let fn := JVal.obj []
    let fn := if (srcFunction.get "name").isNull then fn
              else fn.set "name" (.str (JVal.jvalAsString (srcFunction.get "name")))
    let fn := if (srcFunction.get "description").isNull then fn
              else fn.set "description" (.str (JVal.jvalAsString (srcFunction.get "description")))
    let fn := if (srcFunction.get "parameters").isNull then fn
              else fn.set "parameters" (copyParamsLoop (srcFunction.get "parameters").asObjPairs)
    JVal.obj [("type", tempDoc.get "type"), ("function", fn)]
  else
    JVal.obj [("type", .str "function"), ("function", copyParamsLoop tempDoc.asObjPairs)]

/-- Embedding of the OpenAI tools loop (AI_API_OpenAI.cpp:325-409): invalid
tool JSON is skipped, valid tools are converted in order. -/
def openai_buildTools (toolsArray : List String) : List JVal :=
  toolsArray.foldl (fun acc t =>
    match parseJson t with
    | none => acc
    | some tempDoc => acc ++ [openai_convertTool tempDoc]) []

/-- Embedding of AI_API_OpenAI_Handler::buildToolCallsRequestBody
(AI_API_OpenAI.cpp:241-414). -/
def openai_buildToolCallsRequestBody (modelName : String) (toolsArray : List String)
    (systemMessage toolChoice : String) (maxTokens : Int) (userMessage : String)
    (_doc : JVal) : String × JVal :=
  let doc := JVal.null
  let doc := doc.set "model" (.str modelName)
  let doc := if maxTokens > 0 then doc.set "max_completion_tokens" (.num maxTokens) else doc
  let messages : List JVal :=
    (if systemMessage.length > 0 then
      [JVal.obj [("role", .str "system"), ("content", .str systemMessage)]] else [])
    ++ [JVal.obj [("role", .str "user"), ("content", .str userMessage)]]
  let doc := doc.set "messages" (.arr messages)
  let doc := openai_applyToolChoice doc toolChoice
  let doc := doc.set "tools" (.arr (openai_buildTools toolsArray))
  (serializeJson doc, doc)

/-- Embedding of the tool-field extraction in the Gemini tools loop
(AI_API_Gemini.cpp:289-321): name, description and parameters taken from the
OpenAI-wrapped form when `type` and `function` are both present, else from
the simple form. -/
def gemini_extractTool (toolDoc : JVal) : String × String × JVal :=
  if !(toolDoc.get "type").isNull && !(toolDoc.get "function").isNull then
    let fn := toolDoc.get "function"
    (if (fn.get "name").isNull then "" else JVal.jvalAsString (fn.get "name"),
     if (fn.get "description").isNull then "" else JVal.jvalAsString (fn.get "description"),
     fn.get "parameters")
  else
    (if (toolDoc.get "name").isNull then "" else JVal.jvalAsString (toolDoc.get "name"),
     if (toolDoc.get "description").isNull then "" else JVal.jvalAsString (toolDoc.get "description"),
     toolDoc.get "parameters")

/-- Embedding of the Gemini per-property conversion loop
(AI_API_Gemini.cpp:349-378): each property is rebuilt with its `type`
upper-cased and its `description` and `enum` copied. -/
def gemini_convertProps (srcProps : List (String × JVal)) : JVal :=
  srcProps.foldl (fun props kv =>
    let srcProp := kv.2
    let p := JVal.obj []
    let p := if (srcProp.get "type").isNull then p
             else p.set "type" (.str (upperAscii (JVal.jvalAsString (srcProp.get "type"))))
    let p := if (srcProp.get "description").isNull then p
             else p.set "description" (srcProp.get "description")
    let p := if (srcProp.get "enum").isNull then p
             else p.set "enum" (.arr (srcProp.get "enum").asArrItems)
    props.set kv.1 p) (.obj [])

/-- Embedding of the Gemini parameter conversion
(AI_API_Gemini.cpp:339-406): if the schema is object-typed its type keywords
are upper-cased and properties/required copied; otherwise the parameters are
assumed already Gemini-shaped and copied through. -/
def gemini_convertParams (parameters : JVal) : JVal :=
  if (parameters.get "type").eqStr "object" then
    let gp := JVal.obj [("type", .str "OBJECT")]
    let gp := if (parameters.get "properties").isNull then gp
              else gp.set "properties" (gemini_convertProps (parameters.get "properties").asObjPairs)
    let gp := if (parameters.get "required").isNull then gp
              else gp.set "required" (.arr (parameters.get "required").asArrItems)
    gp
  else
    copyParamsLoop parameters.asObjPairs

/-- Embedding of one iteration of the Gemini tools loop
(AI_API_Gemini.cpp:277-407) after the tool JSON has been parsed: `none`
models the `continue` on a tool without a name. -/
def gemini_convertTool (toolDoc : JVal) : Option JVal :=
  let e := gemini_extractTool toolDoc
  let name := e.1
  let description := e.2.1
  let parameters := e.2.2
  if name.isEmpty then none
  else some (JVal.obj ([("name", .str name)]
    ++ (if description.length > 0 then [("description", .str description)] else [])
    ++ (if parameters.isNull then [] else [("parameters", gemini_convertParams parameters)])))

/-- Embedding of the Gemini function-declarations loop
(AI_API_Gemini.cpp:277-407): invalid tool JSON and nameless tools are
skipped. -/
def gemini_buildFunctionDeclarations (toolsArray : List String) : List JVal :=
  toolsArray.foldl (fun acc t =>
    match parseJson t with
    | none => acc
    | some toolDoc =>
      match gemini_convertTool toolDoc with
      | none => acc
      | some d => acc ++ [d]) []

/-- Embedding of the Gemini tool-choice block (AI_API_Gemini.cpp:409-456):
an OpenAI-style function object maps to mode ANY; the literals are matched
case-insensitively, auto/none map to AUTO/NONE, required/any are upper-cased
verbatim (the source comment says "use exact user values, do not map");
anything else leaves the document unchanged. -/
def gemini_applyToolChoice (doc : JVal) (toolChoice : String) : JVal :=
  if toolChoice.length > 0 then
    let trimmedChoice := strTrim toolChoice
    if strStartsWith trimmedChoice "\x7b" then
      match parseJson trimmedChoice with
      | some parsed =>
        if (parsed.get "type").eqStr "function" then
          doc.set "tool_config" (.obj [("function_calling_config", .obj [("mode", .str "ANY")])])
        else doc
      | none => doc
    else if equalsIgnoreCase trimmedChoice "auto" then
      doc.set "tool_config" (.obj [("function_calling_config", .obj [("mode", .str "AUTO")])])
    else if equalsIgnoreCase trimmedChoice "none" then
      doc.set "tool_config" (.obj [("function_calling_config", .obj [("mode", .str "NONE")])])
    else if equalsIgnoreCase trimmedChoice "required" || equalsIgnoreCase trimmedChoice "any" then
      doc.set "tool_config" (.obj [("function_calling_config",
        .obj [("mode", .str (upperAscii trimmedChoice))])])
    else doc
  else doc

/-- Embedding of AI_API_Gemini_Handler::buildToolCallsRequestBody
(AI_API_Gemini.cpp:238-467). -/
def gemini_buildToolCallsRequestBody (_modelName : String) (toolsArray : List String)
    (systemMessage toolChoice : String) (maxTokens : Int) (userMessage : String)
    (_doc : JVal) : String × JVal :=
  let doc := JVal.null
  let doc := if systemMessage.length > 0 then
      doc.set "systemInstruction" (.obj [("parts", .arr [.obj [("text", .str systemMessage)]])])
    else doc
  let doc := if maxTokens > 0 then
      doc.set "generationConfig" (.obj [("maxOutputTokens", .num maxTokens)]) else doc
  let doc := doc.set "contents" (.arr [.obj [("role", .str "user"),
      ("parts", .arr [.obj [("text", .str userMessage)]])]])
  let doc := doc.set "tools" (.arr [.obj [("functionDeclarations",
      .arr (gemini_buildFunctionDeclarations toolsArray))]])
  let doc := gemini_applyToolChoice doc toolChoice
  (serializeJson doc, doc)

/-- Embedding of AI_API_OpenAI_Handler::processStreamChunk
(AI_API_OpenAI.cpp:164-237).  Returns (content, isComplete, errorMsg,
handler state); the handler state is reset on entry.  The ArduinoJson error
text on a malformed chunk is represented by the fixed tag "InvalidInput". -/
def openai_processStreamChunk (rawChunk : String) (_h : HandlerState) :
    String × Bool × String × HandlerState :=
  let h : HandlerState := {}
  if rawChunk.isEmpty then ("", false, "", h)
  else if strIndexOf rawChunk "[DONE]" != -1 then ("", true, "", h)
  else
    let dataIndex := strIndexOf rawChunk "data: "
    if dataIndex == -1 then ("", false, "", h)
    else
      let jsonPart := strTrim (substringFrom rawChunk (dataIndex.toNat + 6))
      if jsonPart.isEmpty || jsonPart == "[DONE]" then
        ("", jsonPart == "[DONE]", "", h)
      else
        match parseJson jsonPart with
        | none => ("", false, "Failed to parse streaming chunk JSON: InvalidInput", h)
        | some chunkDoc =>
          if !(chunkDoc.get "error").isNull then
            ("", false, "API Error in stream: " ++
              (match (chunkDoc.get "error").get "message" with
               | .str s => s
               | _ => "Unknown error"), h)
          else if (chunkDoc.get "choices").isArr && (chunkDoc.get "choices").arrSize > 0 then
            let firstChoice := (chunkDoc.get "choices").atIdx 0
            let isComplete := !(firstChoice.get "finish_reason").isNull
            let h := if !(firstChoice.get "finish_reason").isNull then
                { h with lastFinishReason := JVal.jvalAsString (firstChoice.get "finish_reason") }
              else h
            if (firstChoice.get "delta").isObj then
              match (firstChoice.get "delta").get "content" with
              | .str s => (s, isComplete, "", h)
              | _ => ("", isComplete, "", h)
            else ("", isComplete, "", h)
          else ("", false, "", h)

/-- Stream session states (ESP32_AI_Connect.h:172-178). -/
inductive StreamState where
  | IDLE : StreamState
  | STARTING : StreamState
  | ACTIVE : StreamState
  | STOPPING : StreamState
  | ERROR : StreamState
deriving DecidableEq

/-- Callback payload (ESP32_AI_Connect.h:181-188).  The wall-clock
`elapsedMs` field is not modelled. -/
structure StreamChunkInfo where
  content : String
  isComplete : Bool
  chunkIndex : Nat
  totalBytes : Nat
  errorMsg : String

/-- Outcome of a handler response-parsing call: the returned content, the
error message written through the by-reference argument, the response
document and the updated handler state. -/
structure ParseOutcome where
  content : String
  errorMsg : String
  doc : JVal
  hstate : HandlerState

/-- The virtual platform-handler interface as used by the orchestrator
(AI_API_Platform_Handler base class): a record of pure functions.  Builders
return the serialized body together with the final shared-document contents;
an empty body signals failure, as in the source. -/
structure Handler where
  getEndpoint : String → String → String → String
  getStreamEndpoint : String → String → String → String
  buildRequestBody : String → String → Int → Int → String → JVal → String → String × JVal
  buildStreamRequestBody : String → String → Int → Int → String → JVal → String → String × JVal
  buildToolCallsFollowUpRequestBody :
    String → List String → String → String → String → String → String → Int → String → JVal →
      String × JVal
  parseResponseBody : String → JVal → HandlerState → ParseOutcome
  parseToolCallsResponseBody : String → JVal → HandlerState → ParseOutcome
  processStreamChunk : String → HandlerState → String × Bool × String × HandlerState

/-- The HTTP transport collaborator (HTTPClient / WiFiClientSecure):
whether `begin` succeeds, the (status, payload) result of a POST, the SSE
lines subsequently readable from the stream, and `errorToString`. -/
structure Transport where
  beginOk : Bool := true
  post : String → String → Int × String
  streamLines : List String := []
  errToString : Int → String := fun c => toString c

/-- Configuration constant AI_API_REQ_JSON_DOC_SIZE
(ESP32_AI_Connect_config.h:88). -/
def AI_API_REQ_JSON_DOC_SIZE : Nat := 5120

/-- The orchestrator object state: the private fields of class
ESP32_AI_Connect (ESP32_AI_Connect.h:232-317) that the embedded methods
read or write.  `handlerPresent` models `_platformHandler != nullptr`;
`tcToolsArray = []` models a null/empty tools array. -/
structure ESP32State where
  apiKey : String := ""
  modelName : String := ""
  systemRole : String := ""
  customEndpoint : String := ""
  temperature : Int := -1
  maxTokens : Int := -1
  chatCustomParams : String := ""
  chatRawResponse : String := ""
  tcRawResponse : String := ""
  chatResponseCode : Int := 0
  tcChatResponseCode : Int := 0
  tcReplyResponseCode : Int := 0
  tcToolsArray : List String := []
  tcSystemRole : String := ""
  tcToolChoice : String := ""
  tcMaxToken : Int := -1
  tcFollowUpToolChoice : String := ""
  tcFollowUpMaxToken : Int := -1
  lastUserMessage : String := ""
  lastAssistantToolCallsJson : String := ""
  lastMessageWasToolCalls : Bool := false
  streamState : StreamState := .IDLE
  streamCallback : Option (StreamChunkInfo → Bool) := none
  streamChunkCount : Nat := 0
  streamTotalBytes : Nat := 0
  streamSystemRole : String := ""
  streamTemperature : Int := -1
  streamMaxTokens : Int := -1
  streamCustomParams : String := ""
  streamRawResponse : String := ""
  streamResponseCode : Int := 0
  lastError : String := ""
  handlerPresent : Bool := true
  hstate : HandlerState := {}
  reqDoc : JVal := .null
  respDoc : JVal := .null

/-- Result of an orchestrator call: the returned string, the final object
state, and the list of (url, body) HTTP POST requests issued. -/
structure CallResult where
  ret : String
  st : ESP32State
  posts : List (String × String)

/-- Result of streamChat: the boolean return, the final object state, and
the HTTP POSTs issued. -/
structure StreamResult where
  ok : Bool
  st : ESP32State
  posts : List (String × String)

namespace ESP32

/-- Embedding of ESP32_AI_Connect::chat (ESP32_AI_Connect.cpp:657-741),
parameterised by the active handler and the transport. -/
def chat (h : Handler) (tr : Transport) (s0 : ESP32State) (userMessage : String) : CallResult :=
  let s := { s0 with lastError := "", chatRawResponse := "", chatResponseCode := 0 }
  if !s.handlerPresent then
    { ret := "", st := { s with lastError :=
        "Platform handler not initialized. Call begin() with a supported platform." },
      posts := [] }
  else
    let url := h.getEndpoint s.modelName s.apiKey s.customEndpoint
    if url.isEmpty then
      { ret := "", st := { s with lastError :=
          "Failed to get endpoint URL from platform handler." }, posts := [] }
    else
      let built := h.buildRequestBody s.modelName s.systemRole s.temperature s.maxTokens
          userMessage s.reqDoc s.chatCustomParams
      let requestBody := built.1
      let s := { s with reqDoc := built.2 }
      if requestBody.isEmpty then
        { ret := "", st := if s.lastError.isEmpty then
            { s with lastError := "Failed to build request body (handler returned empty)." }
          else s, posts := [] }
      else if tr.beginOk then
        let pr := tr.post url requestBody
        let httpCode := pr.1
        let s := { s with chatResponseCode := httpCode }
        if httpCode > 0 then
          let responsePayload := pr.2
          let s := { s with chatRawResponse := responsePayload }
          if httpCode = 200 then
            let po := h.parseResponseBody responsePayload s.respDoc s.hstate
            let s := { s with respDoc := po.doc, hstate := po.hstate, lastError := po.errorMsg }
            let s := if po.content.isEmpty && s.lastError.isEmpty then
                { s with lastError := "Handler failed to parse response or returned empty content." }
              else s
            { ret := po.content, st := s, posts := [(url, requestBody)] }
          else
            { ret := "", st := { s with lastError :=
                "HTTP Error: " ++ toString httpCode ++ " - Response: " ++ responsePayload },
              posts := [(url, requestBody)] }
        else
          { ret := "", st := { s with lastError :=
              "HTTP Request Failed: " ++ tr.errToString httpCode },
            posts := [(url, requestBody)] }
      else
        { ret := "", st := { s with lastError :=
            "HTTP Client failed to begin connection to: " ++ url }, posts := [] }

/-- Embedding of the per-result validation loop of ESP32_AI_Connect::tcReply
(ESP32_AI_Connect.cpp:547-567): the first failing check wins; elements are
viewed through a JsonObject cast, so a non-object element fails the first
check. -/
def validateToolResults : List JVal → Option String
  | [] => none
  | r :: rest =>
    if !(r.hasKey "tool_call_id") then
      some "Each tool result must have a \x27tool_call_id\x27 field."
    else if !(r.hasKey "function") then
      some "Each tool result must have a \x27function\x27 field."
    else
      let fn := r.get "function"
      if !(fn.hasKey "name") then
        some "Each tool result function must have a \x27name\x27 field."
      else if !(fn.hasKey "output") then
        some "Each tool result function must have an \x27output\x27 field."
      else validateToolResults rest

/-- Embedding of ESP32_AI_Connect::tcReply (ESP32_AI_Connect.cpp:502-653),
parameterised by the active handler and the transport.  The ArduinoJson
error text on malformed tool-results JSON is represented by the fixed tag
"InvalidInput". -/
def tcReply (h : Handler) (tr : Transport) (s0 : ESP32State) (toolResultsJson : String) :
    CallResult :=
  let s := { s0 with lastError := "", tcRawResponse := "", tcReplyResponseCode := 0 }
  if !s.handlerPresent then
    { ret := "", st := { s with lastError :=
        "Platform handler not initialized. Call begin() with a supported platform." },
      posts := [] }
  else if s.tcToolsArray.isEmpty then
    { ret := "", st := { s with lastError := "Tool calls not set up. Call setTCTools() first." },
      posts := [] }
  else if !s.lastMessageWasToolCalls then
    { ret := "", st := { s with lastError :=
        "No tool calls to reply to. Call tcChat first and ensure it returns tool calls." },
      posts := [] }
  else if toolResultsJson.length > AI_API_REQ_JSON_DOC_SIZE / 2 then
    { ret := "", st := { s with lastError := ("Tool results JSON too large. Maximum size: " ++ toString (AI_API_REQ_JSON_DOC_SIZE / 2) ++ " bytes.") }, posts := [] }
  else
    match parseJson toolResultsJson with
    | none =>
      { ret := "", st := { s with lastError := "Invalid JSON in tool results: InvalidInput" },
        posts := [] }
    | some parsed =>
      let s := { s with reqDoc := parsed }
      if !parsed.isArr then
        { ret := "", st := { s with lastError := "Tool results must be a JSON array." },
          posts := [] }
      else
        match validateToolResults parsed.asArrItems with
        | some err => { ret := "", st := { s with lastError := err }, posts := [] }
        | none =>
          let url := h.getEndpoint s.modelName s.apiKey s.customEndpoint
          if url.isEmpty then
            { ret := "", st := { s with lastError :=
                "Failed to get endpoint URL from platform handler." }, posts := [] }
          else
            let built := h.buildToolCallsFollowUpRequestBody s.modelName s.tcToolsArray
                s.tcSystemRole s.tcToolChoice s.lastUserMessage s.lastAssistantToolCallsJson
                toolResultsJson s.tcFollowUpMaxToken s.tcFollowUpToolChoice s.reqDoc
            let requestBody := built.1
            let s := { s with reqDoc := built.2 }
            if requestBody.isEmpty then
              { ret := "", st := if s.lastError.isEmpty then
                  { s with lastError := "Failed to build tool calls follow-up request body." }
                else s, posts := [] }
            else if tr.beginOk then
              let pr := tr.post url requestBody
              let httpCode := pr.1
              let s := { s with tcReplyResponseCode := httpCode }
              if httpCode > 0 then
                let responsePayload := pr.2
                let s := { s with tcRawResponse := responsePayload }
                if httpCode = 200 then
                  let po := h.parseToolCallsResponseBody responsePayload s.respDoc s.hstate
                  let s := { s with respDoc := po.doc, hstate := po.hstate, lastError := po.errorMsg }
                  let s :=
                    if po.content.isEmpty && s.lastError.isEmpty then
                      { s with lastError :=
                          "Handler failed to parse tool calls follow-up response." }
                    else if s.hstate.lastFinishReason == "tool_calls" ||
                            s.hstate.lastFinishReason == "tool_use" then
                      { s with lastMessageWasToolCalls := true,
                               lastAssistantToolCallsJson := po.content }
                    else { s with lastMessageWasToolCalls := false }
                  { ret := po.content, st := s, posts := [(url, requestBody)] }
                else
                  { ret := "", st := { s with lastError :=
                      "HTTP Error: " ++ toString httpCode ++ " - Response: " ++ responsePayload },
                    posts := [(url, requestBody)] }
              else
                { ret := "", st := { s with lastError :=
                    "HTTP Request Failed: " ++ tr.errToString httpCode },
                  posts := [(url, requestBody)] }
            else
              { ret := "", st := { s with lastError :=
                  "HTTP Client failed to begin connection to: " ++ url }, posts := [] }

/-- Embedding of ESP32_AI_Connect::stopStreaming
(ESP32_AI_Connect.cpp:871-877): request Stopping only from Active or
Starting (the mutex inside `_setStreamState` is modelled as uncontended). -/
def stopStreaming (s : ESP32State) : ESP32State :=
  if s.streamState = StreamState.ACTIVE || s.streamState = StreamState.STARTING then
    { s with streamState := StreamState.STOPPING }
  else s

/-- Embedding of the `while` read loop of
ESP32_AI_Connect::_processStreamResponse (ESP32_AI_Connect.cpp:1087-1161)
over the list of SSE lines the transport delivers.  Returns (state,
streamComplete, userInterrupted).  Wall-clock chunk timeouts and external
state changes from other threads are outside the sequential model: the loop
ends at stream end (list exhausted, i.e. the peer disconnects), completion,
chunk error, or the callback returning false.  `streamStepState` is the
per-iteration bookkeeping update (raw-response cache, byte and chunk
counters, handler state), ESP32_AI_Connect.cpp:1090-1106. -/
def streamStepState (s : ESP32State) (line : String) (n : Nat) (h2 : HandlerState) :
    ESP32State :=
  { s with streamRawResponse := line
           streamTotalBytes := s.streamTotalBytes + line.length
           streamChunkCount := n + 1
           hstate := h2 }

def streamReadLoop (h : Handler) : List String → ESP32State → Nat → ESP32State × Bool × Bool
  | [], s, _ => (s, false, false)
  | line :: rest, s, n =>
    let pc := h.processStreamChunk line s.hstate
    let s1 := streamStepState s line n pc.2.2.2
    if !pc.2.2.1.isEmpty then ({ s1 with lastError := pc.2.2.1 }, false, false)
    else
      let chunkInfo : StreamChunkInfo := { content := pc.1, isComplete := pc.2.1, chunkIndex := n + 1, totalBytes := s1.streamTotalBytes, errorMsg := pc.2.2.1 }
      if !pc.1.isEmpty || pc.2.1 then
        match s1.streamCallback with
        | some cb =>
          if !cb chunkInfo then (s1, pc.2.1, true)
          else if pc.2.1 then (s1, true, false)
          else streamReadLoop h rest s1 (n + 1)
        | none =>
          if pc.2.1 then (s1, true, false)
          else streamReadLoop h rest s1 (n + 1)
      else if pc.2.1 then (s1, true, false)
      else streamReadLoop h rest s1 (n + 1)

/-- The object state on entry to the read loop: the stored HTTP status of
the streaming POST and the transition to Active
(ESP32_AI_Connect.cpp:1050-1078). -/
def streamLoopEntryState (tr : Transport) (s : ESP32State) (url requestBody : String) :
    ESP32State :=
  { s with streamResponseCode := (tr.post url requestBody).1
           streamState := StreamState.ACTIVE }

/-- Embedding of ESP32_AI_Connect::_processStreamResponse
(ESP32_AI_Connect.cpp:1032-1176): connect, POST, then run the read loop; a
user interruption through the callback returns true (success) without
setting an error. -/
def processStreamResponse (h : Handler) (tr : Transport) (s : ESP32State)
    (url requestBody : String) : Bool × ESP32State × List (String × String) :=
  if !tr.beginOk then
    (false, { s with lastError := "HTTP Client failed to begin connection to: " ++ url }, [])
  else
    let pr := tr.post url requestBody
    let httpCode := pr.1
    let s1 := { s with streamResponseCode := httpCode }
    if httpCode ≤ 0 then
      (false, { s1 with lastError := "HTTP Request Failed: " ++ tr.errToString httpCode },
       [(url, requestBody)])
    else if httpCode ≠ 200 then
      (false, { s1 with lastError :=
          "HTTP Error: " ++ toString httpCode ++ " - Response: " ++ pr.2 },
       [(url, requestBody)])
    else
      let lr := streamReadLoop h tr.streamLines (streamLoopEntryState tr s url requestBody) 0
      if lr.2.2 then (true, lr.1, [(url, requestBody)])
      else (lr.2.1, lr.1, [(url, requestBody)])

/-- The streaming-state initialisation block of ESP32_AI_Connect::streamChat
(ESP32_AI_Connect.cpp:967-975). -/
def streamInitState (s : ESP32State) (cb : StreamChunkInfo → Bool) : ESP32State :=
  { s with streamState := StreamState.STARTING
           streamCallback := some cb
           streamChunkCount := 0
           streamTotalBytes := 0
           streamRawResponse := ""
           streamResponseCode := 0
           lastError := "" }

/-- The object state after initialisation and request building in
streamChat: the shared document now holds the stream request
(ESP32_AI_Connect.cpp:1001-1003). -/
def streamReadyState (h : Handler) (s0 : ESP32State) (userMessage : String)
    (cb : StreamChunkInfo → Bool) : ESP32State :=
  { streamInitState s0 cb with
      reqDoc := (h.buildStreamRequestBody s0.modelName s0.streamSystemRole s0.streamTemperature
        s0.streamMaxTokens userMessage s0.reqDoc s0.streamCustomParams).2 }

/-- Embedding of ESP32_AI_Connect::streamChat (ESP32_AI_Connect.cpp:934-1029).
The FreeRTOS mutex is modelled as uncontended, so the quick state check and
the double-checked re-test under the lock collapse into one test. -/
def streamChat (h : Handler) (tr : Transport) (s0 : ESP32State) (userMessage : String)
    (callback : Option (StreamChunkInfo → Bool)) : StreamResult :=
  if s0.streamState ≠ StreamState.IDLE then
    { ok := false, st := { s0 with lastError := "Streaming operation already in progress" },
      posts := [] }
  else if !s0.handlerPresent then
    { ok := false, st := { s0 with lastError := "Platform handler not initialized" },
      posts := [] }
  else
    match callback with
    | none =>
      { ok := false, st := { s0 with lastError := "Callback function is null" }, posts := [] }
    | some cb =>
      let s := streamInitState s0 cb
      let url := h.getStreamEndpoint s.modelName s.apiKey s.customEndpoint
      if url.isEmpty then
        { ok := false, st := { s with
            lastError := "Failed to get endpoint URL from platform handler",
            streamState := StreamState.ERROR }, posts := [] }
      else
        let built := h.buildStreamRequestBody s.modelName s.streamSystemRole s.streamTemperature
            s.streamMaxTokens userMessage s.reqDoc s.streamCustomParams
        let requestBody := built.1
        let s := streamReadyState h s0 userMessage cb
        if requestBody.isEmpty then
          { ok := false, st := { s with
              lastError := if s.lastError.isEmpty then
                  "Failed to build streaming request body" else s.lastError,
              streamState := StreamState.ERROR }, posts := [] }
        else
          let r := processStreamResponse h tr s url requestBody
          if r.1 then
            { ok := true, st := { r.2.1 with streamState := StreamState.IDLE }, posts := r.2.2 }
          else
            { ok := false, st := { r.2.1 with streamState := StreamState.ERROR }, posts := r.2.2 }

end ESP32

theorem jlook_setPair_self (fs : List (String × JVal)) (k : String) (x : JVal) :
    JVal.jlook (JVal.setPair fs k x) k = some x := by
  induction fs with
  | nil => simp [JVal.setPair, JVal.jlook]
  | cons hd tl ih =>
    obtain ⟨k0, v0⟩ := hd
    by_cases h : k0 = k
    · simp [JVal.setPair, JVal.jlook, h]
    · simp [JVal.setPair, JVal.jlook, h, ih]

theorem jlook_setPair_other (fs : List (String × JVal)) (k : String) (x : JVal) (k2 : String)
    (h : k ≠ k2) : JVal.jlook (JVal.setPair fs k x) k2 = JVal.jlook fs k2 := by
  induction fs with
  | nil => simp [JVal.setPair, JVal.jlook, h]
  | cons hd tl ih =>
    obtain ⟨k0, v0⟩ := hd
    by_cases h0 : k0 = k
    · subst h0
      simp [JVal.setPair, JVal.jlook, h]
    · simp [JVal.setPair, JVal.jlook, h0, ih]

/-- Reading back a member write: the written value when the root accepted the
write and the key matches, otherwise the previous reading. -/
@[simp] theorem get_set (v : JVal) (k : String) (x : JVal) (k2 : String) :
    (v.set k x).get k2 =
      if k = k2 then (if v.memberable = true then x else v.get k2) else v.get k2 := by
  cases v with
  | null =>
    by_cases h : k = k2 <;> simp [JVal.set, JVal.get, JVal.memberable, JVal.jlook, h]
  | obj fs =>
    by_cases h : k = k2
    · subst h
      simp [JVal.set, JVal.get, JVal.memberable, jlook_setPair_self]
    · simp [JVal.set, JVal.get, JVal.memberable, jlook_setPair_other fs k x k2 h, h]
  | bool b => simp [JVal.set, JVal.get, JVal.memberable]
  | num n => simp [JVal.set, JVal.get, JVal.memberable]
  | str s => simp [JVal.set, JVal.get, JVal.memberable]
  | arr xs => simp [JVal.set, JVal.get, JVal.memberable]

@[simp] theorem memberable_set (v : JVal) (k : String) (x : JVal) :
    (v.set k x).memberable = v.memberable := by
  cases v <;> simp [JVal.set, JVal.memberable]

@[simp] theorem memberable_null : JVal.null.memberable = true := rfl

@[simp] theorem memberable_obj (fs : List (String × JVal)) :
    (JVal.obj fs).memberable = true := rfl

theorem get_set_self (v : JVal) (k : String) (x : JVal) (hv : v.memberable = true) :
    (v.set k x).get k = x := by
  simp [hv]

theorem get_set_other (v : JVal) (k : String) (x : JVal) (k2 : String) (h : k ≠ k2) :
    (v.set k x).get k2 = v.get k2 := by
  simp [h]

/-- C10: `stopStreaming` transitions the stream state to Stopping exactly
when the current state is Starting or Active; from Idle, Stopping or Error
it leaves the whole object state unchanged
(ESP32_AI_Connect.cpp:871-877). -/
theorem c10_stopStreaming_guard (s : ESP32State) :
    ((s.streamState = StreamState.ACTIVE ∨ s.streamState = StreamState.STARTING) →
      (ESP32.stopStreaming s).streamState = StreamState.STOPPING) ∧
    ((s.streamState = StreamState.IDLE ∨ s.streamState = StreamState.STOPPING ∨
      s.streamState = StreamState.ERROR) → ESP32.stopStreaming s = s) := by
  constructor
  · intro hs
    rcases hs with h | h <;> simp [ESP32.stopStreaming, h]
  · intro hs
    rcases hs with h | h | h <;> simp [ESP32.stopStreaming, h]

/-- Witness for C10 at the concrete states Active and Idle. -/
theorem c10_stopStreaming_guard_witness :
    (ESP32.stopStreaming { streamState := StreamState.ACTIVE }).streamState =
      StreamState.STOPPING ∧
    ESP32.stopStreaming ({ streamState := StreamState.IDLE } : ESP32State) =
      { streamState := StreamState.IDLE } :=
  ⟨(c10_stopStreaming_guard { streamState := StreamState.ACTIVE }).1 (Or.inl rfl),
   (c10_stopStreaming_guard { streamState := StreamState.IDLE }).2 (Or.inl rfl)⟩

/-- C4: a second `streamChat` issued while the stream state is Active fails
(returns false) with a last error containing "in progress", performs no HTTP
POST, and leaves the stream state Active (ESP32_AI_Connect.cpp:934-951). -/
theorem c4_streamChat_whileActive (h : Handler) (tr : Transport) (s : ESP32State)
    (userMessage : String) (callback : Option (StreamChunkInfo → Bool))
    (hactive : s.streamState = StreamState.ACTIVE) :
    (ESP32.streamChat h tr s userMessage callback).ok = false ∧
    strContains (ESP32.streamChat h tr s userMessage callback).st.lastError "in progress" = true ∧
    (ESP32.streamChat h tr s userMessage callback).st.streamState = StreamState.ACTIVE ∧
    (ESP32.streamChat h tr s userMessage callback).posts = [] := by
  simp [ESP32.streamChat, hactive]
  decide

/-- Witness for C4 at a concrete Active state. -/
theorem c4_streamChat_whileActive_witness :
    (ESP32.streamChat
      { getEndpoint := fun _ _ _ => "u", getStreamEndpoint := fun _ _ _ => "u",
        buildRequestBody := openai_buildRequestBody,
        buildStreamRequestBody := openai_buildStreamRequestBody,
        buildToolCallsFollowUpRequestBody := fun _ _ _ _ _ _ _ _ _ d => ("", d),
        parseResponseBody := fun p d hs => ⟨p, "", d, hs⟩,
        parseToolCallsResponseBody := fun p d hs => ⟨p, "", d, hs⟩,
        processStreamChunk := openai_processStreamChunk }
      { post := fun _ _ => (200, "") }
      { streamState := StreamState.ACTIVE } "hello" none).ok = false :=
  (c4_streamChat_whileActive _ _ _ _ _ rfl).1

/-- C3: `tcReply` invoked while `_lastMessageWasToolCalls` is false returns
the empty string, leaves a non-empty error retrievable via getLastError, and
issues no HTTP request (ESP32_AI_Connect.cpp:502-523). -/
theorem c3_tcReply_noPendingToolCalls (h : Handler) (tr : Transport) (s : ESP32State)
    (toolResultsJson : String) (hflag : s.lastMessageWasToolCalls = false) :
    (ESP32.tcReply h tr s toolResultsJson).ret = "" ∧
    (ESP32.tcReply h tr s toolResultsJson).st.lastError ≠ "" ∧
    (ESP32.tcReply h tr s toolResultsJson).posts = [] := by
  by_cases hp : s.handlerPresent
  · by_cases ht : s.tcToolsArray.isEmpty
    · simp [ESP32.tcReply, hp, ht]
    · simp [ESP32.tcReply, hp, ht, hflag]
  · simp [ESP32.tcReply, hp]

/-- Witness for C3 at a concrete state with no pending tool-call batch. -/
theorem c3_tcReply_noPendingToolCalls_witness :
    (ESP32.tcReply
      { getEndpoint := fun _ _ _ => "u", getStreamEndpoint := fun _ _ _ => "u",
        buildRequestBody := openai_buildRequestBody,
        buildStreamRequestBody := openai_buildStreamRequestBody,
        buildToolCallsFollowUpRequestBody := fun _ _ _ _ _ _ _ _ _ d => ("", d),
        parseResponseBody := fun p d hs => ⟨p, "", d, hs⟩,
        parseToolCallsResponseBody := fun p d hs => ⟨p, "", d, hs⟩,
        processStreamChunk := openai_processStreamChunk }
      { post := fun _ _ => (200, "") }
      { tcToolsArray := ["\x7b\"name\":\"t\",\"parameters\":\x7b\x7d\x7d"],
        lastMessageWasToolCalls := false }
      "[]").posts = [] :=
  (c3_tcReply_noPendingToolCalls _ _ _ _ rfl).2.2

/-- C7: the OpenAI stream-chunk parser on the literal line "data: [DONE]"
reports completion with empty content, and on the literal line
containing choices[0].delta.content "hi" yields content "hi", not complete,
with no error (AI_API_OpenAI.cpp:164-237). -/
theorem c7_openai_stream_chunk_literals :
    (openai_processStreamChunk "data: [DONE]" {}).1 = "" ∧
    (openai_processStreamChunk "data: [DONE]" {}).2.1 = true ∧
    (openai_processStreamChunk
      "data: \x7b\"choices\":[\x7b\"delta\":\x7b\"content\":\"hi\"\x7d\x7d]\x7d" {}).1 = "hi" ∧
    (openai_processStreamChunk
      "data: \x7b\"choices\":[\x7b\"delta\":\x7b\"content\":\"hi\"\x7d\x7d]\x7d" {}).2.1 = false ∧
    (openai_processStreamChunk
      "data: \x7b\"choices\":[\x7b\"delta\":\x7b\"content\":\"hi\"\x7d\x7d]\x7d" {}).2.2.1 = "" :=
  ⟨rfl, rfl, rfl, rfl, rfl⟩

/-- A concrete handler record used by witness theorems: fixed endpoints, the
OpenAI builders and chunk parser, and parsers that echo the payload. -/
def demoHandler : Handler :=
  { getEndpoint := fun _ _ _ => "https://api.example/v1/chat"
    getStreamEndpoint := fun _ _ _ => "https://api.example/v1/stream"
    buildRequestBody := openai_buildRequestBody
    buildStreamRequestBody := openai_buildStreamRequestBody
    buildToolCallsFollowUpRequestBody := fun _ _ _ _ _ _ _ _ _ d => ("\x7b\x7d", d)
    parseResponseBody := fun p d hs => ⟨p, "", d, hs⟩
    parseToolCallsResponseBody := fun p d hs => ⟨p, "", d, hs⟩
    processStreamChunk := openai_processStreamChunk }

/-- A concrete tool definition (simple form) used by witness theorems. -/
def demoToolJson : String :=
  "\x7b\"name\":\"t\",\"description\":\"d\",\"parameters\":\x7b\"type\":\"object\"\x7d\x7d"

/-- C6: a chat call whose HTTP POST is answered with status 401 and the
vendor error envelope containing "bad key" returns the empty string, and the
retrievable last error contains "bad key" (the non-2xx branch embeds the
payload into the error, ESP32_AI_Connect.cpp:720-733). -/
theorem c6_chat_vendor401 (h : Handler) (tr : Transport) (s : ESP32State) (msg : String)
    (hp : s.handlerPresent = true)
    (hurl : (h.getEndpoint s.modelName s.apiKey s.customEndpoint).isEmpty = false)
    (hbody : (h.buildRequestBody s.modelName s.systemRole s.temperature s.maxTokens msg
        s.reqDoc s.chatCustomParams).1.isEmpty = false)
    (hbegin : tr.beginOk = true)
    (hpost : tr.post (h.getEndpoint s.modelName s.apiKey s.customEndpoint)
        (h.buildRequestBody s.modelName s.systemRole s.temperature s.maxTokens msg
          s.reqDoc s.chatCustomParams).1 =
        (401, "\x7b\"error\":\x7b\"message\":\"bad key\"\x7d\x7d")) :
    (ESP32.chat h tr s msg).ret = "" ∧
    strContains (ESP32.chat h tr s msg).st.lastError "bad key" = true := by
  simp [ESP32.chat, hp, hurl, hbody, hbegin, hpost]
  decide

/-- Witness for C6: a transport that always answers 401 with the envelope. -/
theorem c6_chat_vendor401_witness :
    (ESP32.chat demoHandler
      { post := fun _ _ => (401, "\x7b\"error\":\x7b\"message\":\"bad key\"\x7d\x7d") }
      {} "hello").ret = "" :=
  (c6_chat_vendor401 demoHandler
    { post := fun _ _ => (401, "\x7b\"error\":\x7b\"message\":\"bad key\"\x7d\x7d") }
    {} "hello" rfl rfl rfl rfl rfl).1

/-- C9 counterexample: the Claude adapter never clears the shared document in
buildRequestBody, so two calls with identical explicit arguments but
different prior document contents emit different bodies (a leftover member
of the earlier request survives into the new body). -/
theorem c9_counterexample :
    (claude_buildRequestBody "m" "" (-1) (-1) "hi"
        (JVal.obj [("leftover", JVal.num 1)]) "").1 ≠
    (claude_buildRequestBody "m" "" (-1) (-1) "hi" JVal.null "").1 := by
  decide

/-- C9 amended: the OpenAI and Gemini chat builders (plain and stream) clear
the shared document first and are therefore functions of their explicit
arguments only; the Claude plain and stream chat builders are not (they skip
the clear; see the counterexample), although Claude's tool-call builders do
clear. -/
theorem c9_builders_doc_independent (modelName systemRole : String)
    (temperature maxTokens : Int) (userMessage : String) (d1 d2 : JVal) (customParams : String) :
    openai_buildRequestBody modelName systemRole temperature maxTokens userMessage d1
        customParams =
      openai_buildRequestBody modelName systemRole temperature maxTokens userMessage d2
        customParams ∧
    openai_buildStreamRequestBody modelName systemRole temperature maxTokens userMessage d1
        customParams =
      openai_buildStreamRequestBody modelName systemRole temperature maxTokens userMessage d2
        customParams ∧
    gemini_buildRequestBody modelName systemRole temperature maxTokens userMessage d1
        customParams =
      gemini_buildRequestBody modelName systemRole temperature maxTokens userMessage d2
        customParams ∧
    gemini_buildStreamRequestBody modelName systemRole temperature maxTokens userMessage d1
        customParams =
      gemini_buildStreamRequestBody modelName systemRole temperature maxTokens userMessage d2
        customParams :=
  ⟨rfl, rfl, rfl, rfl⟩

theorem claude_applyToolChoice_required (doc : JVal) :
    claude_applyToolChoice doc "required" =
      doc.set "tool_choice" (.obj [("type", .str "required")]) := rfl

theorem claude_applyToolChoice_any (doc : JVal) :
    claude_applyToolChoice doc "any" =
      doc.set "tool_choice" (.obj [("type", .str "any")]) := rfl

theorem gemini_applyToolChoice_required (doc : JVal) :
    gemini_applyToolChoice doc "required" =
      doc.set "tool_config"
        (.obj [("function_calling_config", .obj [("mode", .str "REQUIRED")])]) := rfl

theorem gemini_applyToolChoice_any (doc : JVal) :
    gemini_applyToolChoice doc "any" =
      doc.set "tool_config"
        (.obj [("function_calling_config", .obj [("mode", .str "ANY")])]) := rfl

/-- C2 counterexample: with tool choice "required", the Claude tool-call
body carries tool_choice.type "required" (not "any": its recognised literal
set is auto/any/none and anything else is passed through), and the Gemini
body carries mode "REQUIRED" (not "ANY": the source upper-cases the exact
user value without mapping). -/
theorem c2_counterexample :
    ((claude_buildToolCallsRequestBody "m" [demoToolJson] "" "required" 100 "hi" JVal.null).map
        (fun r => (r.2.get "tool_choice").get "type")) = some (JVal.str "required") ∧
    JVal.str "required" ≠ JVal.str "any" ∧
    ((((gemini_buildToolCallsRequestBody "m" [demoToolJson] "" "required" 100 "hi"
        JVal.null).2.get "tool_config").get "function_calling_config").get "mode" =
      JVal.str "REQUIRED") ∧
    JVal.str "REQUIRED" ≠ JVal.str "ANY" := by
  refine ⟨rfl, ?_, rfl, ?_⟩ <;>
    · intro hcontra
      injection hcontra with hs
      exact absurd hs (by decide)

/-- C2 amended: for every tool-call request built with tool choice
"required", the Claude body carries tool_choice.type "required" and the
Gemini body carries mode "REQUIRED" — the vendor "any"/"ANY" form is emitted
for the input string "any", not for "required". -/
theorem c2_required_passthrough (modelName : String) (toolsArray : List String)
    (systemMessage : String) (maxTokens : Int) (userMessage : String) (doc : JVal) :
    (∀ body d, claude_buildToolCallsRequestBody modelName toolsArray systemMessage "required"
        maxTokens userMessage doc = some (body, d) →
      (d.get "tool_choice").get "type" = JVal.str "required") ∧
    (((gemini_buildToolCallsRequestBody modelName toolsArray systemMessage "required"
        maxTokens userMessage doc).2.get "tool_config").get "function_calling_config").get "mode"
      = JVal.str "REQUIRED" ∧
    (∀ body d, claude_buildToolCallsRequestBody modelName toolsArray systemMessage "any"
        maxTokens userMessage doc = some (body, d) →
      (d.get "tool_choice").get "type" = JVal.str "any") ∧
    (((gemini_buildToolCallsRequestBody modelName toolsArray systemMessage "any"
        maxTokens userMessage doc).2.get "tool_config").get "function_calling_config").get "mode"
      = JVal.str "ANY" := by
  refine ⟨?_, ?_, ?_, ?_⟩
  · intro body d heq
    simp only [claude_buildToolCallsRequestBody] at heq
    cases htools : claude_buildTools toolsArray with
    | none => rw [htools] at heq; simp at heq
    | some tools =>
      rw [htools] at heq
      simp only [Option.some.injEq, Prod.mk.injEq] at heq
      obtain ⟨hbody, hd⟩ := heq
      rw [← hd, claude_applyToolChoice_required, get_set_self]
      · simp [JVal.get, JVal.jlook]
      · by_cases hsys : systemMessage.length > 0 <;> simp [hsys]
  · simp only [gemini_buildToolCallsRequestBody, gemini_applyToolChoice_required]
    rw [get_set_self]
    · simp [JVal.get, JVal.jlook]
    · by_cases h1 : systemMessage.length > 0 <;> by_cases h2 : maxTokens > 0 <;>
        simp [h1, h2]
  · intro body d heq
    simp only [claude_buildToolCallsRequestBody] at heq
    cases htools : claude_buildTools toolsArray with
    | none => rw [htools] at heq; simp at heq
    | some tools =>
      rw [htools] at heq
      simp only [Option.some.injEq, Prod.mk.injEq] at heq
      obtain ⟨hbody, hd⟩ := heq
      rw [← hd, claude_applyToolChoice_any, get_set_self]
      · simp [JVal.get, JVal.jlook]
      · by_cases hsys : systemMessage.length > 0 <;> simp [hsys]
  · simp only [gemini_buildToolCallsRequestBody, gemini_applyToolChoice_any]
    rw [get_set_self]
    · simp [JVal.get, JVal.jlook]
    · by_cases h1 : systemMessage.length > 0 <;> by_cases h2 : maxTokens > 0 <;>
        simp [h1, h2]

/-- Witness for C2 at a concrete tool list, exercising the Claude conjunct
with its success hypothesis discharged by evaluation. -/
theorem c2_required_passthrough_witness :
    ((((claude_buildToolCallsRequestBody "m" [demoToolJson] "" "required" 100 "hi"
        JVal.null).getD ("", JVal.null)).2.get "tool_choice").get "type" =
      JVal.str "required") :=
  (c2_required_passthrough "m" [demoToolJson] "" 100 "hi" JVal.null).1
    ((claude_buildToolCallsRequestBody "m" [demoToolJson] "" "required" 100 "hi"
        JVal.null).getD ("", JVal.null)).1
    ((claude_buildToolCallsRequestBody "m" [demoToolJson] "" "required" 100 "hi"
        JVal.null).getD ("", JVal.null)).2
    (by rfl)

@[simp] theorem streamStepState_lastError (s : ESP32State) (line : String) (n : Nat)
    (h2 : HandlerState) : (ESP32.streamStepState s line n h2).lastError = s.lastError := rfl

@[simp] theorem streamStepState_callback (s : ESP32State) (line : String) (n : Nat)
    (h2 : HandlerState) :
    (ESP32.streamStepState s line n h2).streamCallback = s.streamCallback := rfl

@[simp] theorem streamStepState_totalBytes (s : ESP32State) (line : String) (n : Nat)
    (h2 : HandlerState) :
    (ESP32.streamStepState s line n h2).streamTotalBytes = s.streamTotalBytes + line.length := rfl

/-- A run of the read loop that ends user-interrupted (the callback returned
false) never touches lastError: the only writer of lastError in the loop is
the chunk-error branch, which terminates with the interrupted flag clear. -/
theorem streamReadLoop_interrupted_lastError (h : Handler) (lines : List String)
    (s : ESP32State) (n : Nat)
    (hint : (ESP32.streamReadLoop h lines s n).2.2 = true) :
    (ESP32.streamReadLoop h lines s n).1.lastError = s.lastError := by
  induction lines generalizing s n with
  | nil => simp [ESP32.streamReadLoop] at hint
  | cons line rest ih =>
    rw [ESP32.streamReadLoop] at hint ⊢
    rcases hpc : h.processStreamChunk line s.hstate with ⟨content, isComplete, errorMsg, h2⟩
    simp only [hpc, streamStepState_callback, streamStepState_totalBytes] at hint ⊢
    by_cases herr : (!errorMsg.isEmpty) = true
    · rw [if_pos herr] at hint
      simp at hint
    · rw [if_neg herr] at hint ⊢
      by_cases hci : (!content.isEmpty || isComplete) = true
      · rw [if_pos hci] at hint ⊢
        rcases hcb : s.streamCallback with _ | cb
        · simp only [hcb] at hint ⊢
          by_cases hcomp : isComplete = true
          · rw [if_pos hcomp] at hint
            simp at hint
          · rw [if_neg hcomp] at hint ⊢
            rw [ih _ _ hint, streamStepState_lastError]
        · simp only [hcb] at hint ⊢
          by_cases hstop :
              (!cb ⟨content, isComplete, n + 1, s.streamTotalBytes + line.length, errorMsg⟩) = true
          · rw [if_pos hstop] at hint ⊢
            rfl
          · rw [if_neg hstop] at hint ⊢
            by_cases hcomp : isComplete = true
            · rw [if_pos hcomp] at hint
              simp at hint
            · rw [if_neg hcomp] at hint ⊢
              rw [ih _ _ hint, streamStepState_lastError]
      · rw [if_neg hci] at hint ⊢
        by_cases hcomp : isComplete = true
        · rw [if_pos hcomp] at hint
          simp at hint
        · rw [if_neg hcomp] at hint ⊢
          rw [ih _ _ hint, streamStepState_lastError]

@[simp] theorem streamInitState_modelName (s : ESP32State) (cb : StreamChunkInfo → Bool) :
    (ESP32.streamInitState s cb).modelName = s.modelName := rfl

@[simp] theorem streamInitState_apiKey (s : ESP32State) (cb : StreamChunkInfo → Bool) :
    (ESP32.streamInitState s cb).apiKey = s.apiKey := rfl

@[simp] theorem streamInitState_customEndpoint (s : ESP32State) (cb : StreamChunkInfo → Bool) :
    (ESP32.streamInitState s cb).customEndpoint = s.customEndpoint := rfl

@[simp] theorem streamInitState_streamSystemRole (s : ESP32State) (cb : StreamChunkInfo → Bool) :
    (ESP32.streamInitState s cb).streamSystemRole = s.streamSystemRole := rfl

@[simp] theorem streamInitState_streamTemperature (s : ESP32State) (cb : StreamChunkInfo → Bool) :
    (ESP32.streamInitState s cb).streamTemperature = s.streamTemperature := rfl

@[simp] theorem streamInitState_streamMaxTokens (s : ESP32State) (cb : StreamChunkInfo → Bool) :
    (ESP32.streamInitState s cb).streamMaxTokens = s.streamMaxTokens := rfl

@[simp] theorem streamInitState_reqDoc (s : ESP32State) (cb : StreamChunkInfo → Bool) :
    (ESP32.streamInitState s cb).reqDoc = s.reqDoc := rfl

@[simp] theorem streamInitState_streamCustomParams (s : ESP32State)
    (cb : StreamChunkInfo → Bool) :
    (ESP32.streamInitState s cb).streamCustomParams = s.streamCustomParams := rfl

@[simp] theorem streamLoopEntryState_lastError (tr : Transport) (s : ESP32State)
    (url body : String) : (ESP32.streamLoopEntryState tr s url body).lastError = s.lastError := rfl

@[simp] theorem streamReadyState_lastError (h : Handler) (s : ESP32State) (msg : String)
    (cb : StreamChunkInfo → Bool) : (ESP32.streamReadyState h s msg cb).lastError = "" := rfl

/-- C8: a streaming session stopped by the user callback returning false is
a successful stop: streamChat returns true, no error message is left behind
by the interruption, and the stream state is reset to Idle
(ESP32_AI_Connect.cpp:1127-1139, 1163-1175, 1018-1028).  The interruption
hypothesis states that the read loop over the delivered lines ends with the
user-interrupted flag, which happens exactly when the callback returns
false at some invocation. -/
theorem c8_callback_false_is_success (h : Handler) (tr : Transport) (s : ESP32State)
    (msg : String) (cb : StreamChunkInfo → Bool)
    (hidle : s.streamState = StreamState.IDLE)
    (hp : s.handlerPresent = true)
    (hurl : (h.getStreamEndpoint s.modelName s.apiKey s.customEndpoint).isEmpty = false)
    (hbody : (h.buildStreamRequestBody s.modelName s.streamSystemRole s.streamTemperature
        s.streamMaxTokens msg s.reqDoc s.streamCustomParams).1.isEmpty = false)
    (hbegin : tr.beginOk = true)
    (hpost : (tr.post (h.getStreamEndpoint s.modelName s.apiKey s.customEndpoint)
        (h.buildStreamRequestBody s.modelName s.streamSystemRole s.streamTemperature
          s.streamMaxTokens msg s.reqDoc s.streamCustomParams).1).1 = 200)
    (hstop : (ESP32.streamReadLoop h tr.streamLines
        (ESP32.streamLoopEntryState tr (ESP32.streamReadyState h s msg cb)
          (h.getStreamEndpoint s.modelName s.apiKey s.customEndpoint)
          (h.buildStreamRequestBody s.modelName s.streamSystemRole s.streamTemperature
            s.streamMaxTokens msg s.reqDoc s.streamCustomParams).1) 0).2.2 = true) :
    (ESP32.streamChat h tr s msg (some cb)).ok = true ∧
    (ESP32.streamChat h tr s msg (some cb)).st.lastError = "" ∧
    (ESP32.streamChat h tr s msg (some cb)).st.streamState = StreamState.IDLE := by
  have hkey := streamReadLoop_interrupted_lastError h tr.streamLines
      (ESP32.streamLoopEntryState tr (ESP32.streamReadyState h s msg cb)
        (h.getStreamEndpoint s.modelName s.apiKey s.customEndpoint)
        (h.buildStreamRequestBody s.modelName s.streamSystemRole s.streamTemperature
          s.streamMaxTokens msg s.reqDoc s.streamCustomParams).1) 0 hstop
  simp only [ESP32.streamChat, ESP32.processStreamResponse, hidle, hp,
    streamInitState_modelName, streamInitState_apiKey, streamInitState_customEndpoint,
    streamInitState_streamSystemRole, streamInitState_streamTemperature,
    streamInitState_streamMaxTokens, streamInitState_reqDoc,
    streamInitState_streamCustomParams, hurl, hbegin, hpost, hstop, hkey,
    streamLoopEntryState_lastError, streamReadyState_lastError, hbody]
  simp
  rw [hkey]
  simp

/-- A transport used by the C8 witness: connects, answers 200, and delivers
one OpenAI content chunk line. -/
def demoStreamTransport : Transport :=
  { post := fun _ _ => (200, "")
    streamLines := ["data: \x7b\"choices\":[\x7b\"delta\":\x7b\"content\":\"hi\"\x7d\x7d]\x7d"] }

/-- Witness for C8: a callback that immediately returns false stops the
stream and streamChat still reports success. -/
theorem c8_callback_false_is_success_witness :
    (ESP32.streamChat demoHandler demoStreamTransport {} "hello"
      (some (fun _ => false))).ok = true :=
  (c8_callback_false_is_success demoHandler demoStreamTransport {} "hello" (fun _ => false)
    rfl rfl rfl rfl rfl rfl rfl).1

theorem jlook_mem (fs : List (String × JVal)) (k : String) (x : JVal)
    (h : JVal.jlook fs k = some x) : (k, x) ∈ fs := by
  induction fs with
  | nil => simp [JVal.jlook] at h
  | cons hd tl ih =>
    obtain ⟨k0, v0⟩ := hd
    by_cases hk : k0 = k
    · subst hk
      simp [JVal.jlook] at h
      subst h
      exact List.mem_cons_self _ _
    · simp [JVal.jlook, hk] at h
      exact List.mem_cons_of_mem _ (ih h)

theorem jlook_none_head (fs : List (String × JVal)) (k0 : String) (v0 : JVal) (k : String)
    (h : JVal.jlook ((k0, v0) :: fs) k = none) : k0 ≠ k ∧ JVal.jlook fs k = none := by
  by_cases hk : k0 = k
  · simp [JVal.jlook, hk] at h
  · simp [JVal.jlook, hk] at h
    exact ⟨hk, h⟩

theorem mem_setPair (fs : List (String × JVal)) (k : String) (x : JVal) (p : String × JVal)
    (h : p ∈ JVal.setPair fs k x) : p = (k, x) ∨ p ∈ fs := by
  induction fs with
  | nil => simp [JVal.setPair] at h; exact Or.inl h
  | cons hd tl ih =>
    obtain ⟨k0, v0⟩ := hd
    by_cases hk : k0 = k
    · subst hk
      simp [JVal.setPair] at h
      rcases h with h | h
      · exact Or.inl (by simp [h])
      · exact Or.inr (List.mem_cons_of_mem _ h)
    · simp [JVal.setPair, hk] at h
      rcases h with h | h
      · exact Or.inr (by simp [h])
      · rcases ih h with h2 | h2
        · exact Or.inl h2
        · exact Or.inr (List.mem_cons_of_mem _ h2)

theorem mem_removePair (fs : List (String × JVal)) (k : String) (p : String × JVal)
    (h : p ∈ JVal.removePair fs k) : p ∈ fs := by
  induction fs with
  | nil => simp [JVal.removePair] at h
  | cons hd tl ih =>
    obtain ⟨k0, v0⟩ := hd
    by_cases hk : k0 = k
    · subst hk
      simp [JVal.removePair] at h
      exact List.mem_cons_of_mem _ h
    · simp [JVal.removePair, hk] at h
      rcases h with h | h
      · simp [h]
      · exact List.mem_cons_of_mem _ (ih h)

/-- All bindings of a given key in the root object satisfy a property. -/
def keyBound (K : String) (P : JVal → Prop) (doc : JVal) : Prop :=
  ∀ p ∈ doc.asObjPairs, p.1 = K → P p.2

theorem keyBound_null (K : String) (P : JVal → Prop) : keyBound K P JVal.null := by
  intro p hp
  simp [JVal.asObjPairs] at hp

theorem keyBound_nonObj (K : String) (P : JVal → Prop) (v : JVal) (h : v.isObj = false) :
    keyBound K P v := by
  intro p hp
  cases v <;> simp [JVal.asObjPairs] at hp
  simp [JVal.isObj] at h

theorem keyBound_set_other (K : String) (P : JVal → Prop) (doc : JVal) (k : String) (x : JVal)
    (hb : keyBound K P doc) (hk : k ≠ K) : keyBound K P (doc.set k x) := by
  intro p hp hpk
  cases doc with
  | null =>
    simp [JVal.set, JVal.asObjPairs] at hp
    rw [hp] at hpk
    exact absurd hpk hk
  | obj fs =>
    simp only [JVal.set, JVal.asObjPairs] at hp
    rcases mem_setPair fs k x p hp with h | h
    · rw [h] at hpk
      exact absurd hpk hk
    · exact hb p h hpk
  | bool b => exact hb p hp hpk
  | num n => exact hb p hp hpk
  | str s => exact hb p hp hpk
  | arr xs => exact hb p hp hpk

theorem keyBound_set_key (K : String) (P : JVal → Prop) (doc : JVal) (x : JVal)
    (hb : keyBound K P doc) (hx : P x) : keyBound K P (doc.set K x) := by
  intro p hp hpk
  cases doc with
  | null =>
    simp [JVal.set, JVal.asObjPairs] at hp
    rw [hp]
    exact hx
  | obj fs =>
    simp only [JVal.set, JVal.asObjPairs] at hp
    rcases mem_setPair fs K x p hp with h | h
    · rw [h]
      exact hx
    · exact hb p h hpk
  | bool b => exact hb p hp hpk
  | num n => exact hb p hp hpk
  | str s => exact hb p hp hpk
  | arr xs => exact hb p hp hpk

theorem keyBound_removeKey (K : String) (P : JVal → Prop) (doc : JVal) (k : String)
    (hb : keyBound K P doc) : keyBound K P (doc.removeKey k) := by
  intro p hp hpk
  cases doc with
  | obj fs =>
    simp only [JVal.removeKey, JVal.asObjPairs] at hp
    exact hb p (mem_removePair fs k p hp) hpk
  | null => exact hb p hp hpk
  | bool b => exact hb p hp hpk
  | num n => exact hb p hp hpk
  | str s => exact hb p hp hpk
  | arr xs => exact hb p hp hpk

theorem keyBound_get (K : String) (P : JVal → Prop) (doc : JVal)
    (hnull : P JVal.null) (hb : keyBound K P doc) : P (doc.get K) := by
  cases doc with
  | obj fs =>
    simp only [JVal.get]
    cases hl : JVal.jlook fs K with
    | none => simpa using hnull
    | some x =>
      simp only [Option.getD]
      exact hb (K, x) (jlook_mem fs K x hl) rfl
  | null => exact hnull
  | bool b => exact hnull
  | num n => exact hnull
  | str s => exact hnull
  | arr xs => exact hnull

theorem foldl_setlike_get_preserved (f : JVal → String × JVal → JVal)
    (hf : ∀ d kv, f d kv = d ∨ f d kv = d.set kv.1 kv.2)
    (ps : List (String × JVal)) (doc : JVal) (K : String)
    (hnone : JVal.jlook ps K = none) :
    (ps.foldl f doc).get K = doc.get K := by
  induction ps generalizing doc with
  | nil => rfl
  | cons hd tl ih =>
    obtain ⟨hk, htl⟩ := jlook_none_head tl hd.1 hd.2 K (by rw [← hnone])
    rw [List.foldl_cons, ih _ htl]
    rcases hf doc hd with he | he
    · rw [he]
    · rw [he, get_set_other _ _ _ _ hk]

theorem foldl_setlike_memberable (f : JVal → String × JVal → JVal)
    (hf : ∀ d kv, f d kv = d ∨ f d kv = d.set kv.1 kv.2)
    (ps : List (String × JVal)) (doc : JVal) :
    (ps.foldl f doc).memberable = doc.memberable := by
  induction ps generalizing doc with
  | nil => rfl
  | cons hd tl ih =>
    rw [List.foldl_cons, ih]
    rcases hf doc hd with he | he
    · rw [he]
    · rw [he, memberable_set]

/-- Every generationConfig binding in the root carries no maxOutputTokens
member. -/
abbrev gcHasNoMaxOut (doc : JVal) : Prop :=
  keyBound "generationConfig" (fun v => v.get "maxOutputTokens" = JVal.null) doc

/-- Every generationConfig binding in the root is writable (an object). -/
abbrev gcMemberable (doc : JVal) : Prop :=
  keyBound "generationConfig" (fun v => v.memberable = true) doc

theorem gemini_customStep_preserves (excluded : List String) (doc : JVal) (b : Bool)
    (k : String) (v : JVal)
    (hm : doc.memberable = true) (hclean : gcHasNoMaxOut doc) (hmem : gcMemberable doc)
    (hk1 : k ≠ "maxOutputTokens") (hk2 : k ≠ "generationConfig") :
    (gemini_customStep excluded (doc, b) (k, v)).1.memberable = true ∧
    gcHasNoMaxOut (gemini_customStep excluded (doc, b) (k, v)).1 ∧
    gcMemberable (gemini_customStep excluded (doc, b) (k, v)).1 := by
  simp only [gemini_customStep]
  by_cases hr : geminiGenConfigKeys.contains k
  · simp only [hr, if_true]
    have hm1 : (if b then doc else doc.set "generationConfig" (JVal.obj [])).memberable
        = true := by
      cases b <;> simp [hm]
    have hclean1 : gcHasNoMaxOut (if b then doc else doc.set "generationConfig" (JVal.obj [])) := by
      cases b
      · simp only [Bool.false_eq_true, if_false]
        exact keyBound_set_key _ _ _ _ hclean (by rfl)
      · simpa using hclean
    have hmem1 : gcMemberable (if b then doc else doc.set "generationConfig" (JVal.obj [])) := by
      cases b
      · simp only [Bool.false_eq_true, if_false]
        exact keyBound_set_key _ _ _ _ hmem (by rfl)
      · simpa using hmem
    refine ⟨?_, ?_, ?_⟩
    · simp only [JVal.setIn, memberable_set]
      exact hm1
    · simp only [JVal.setIn]
      refine keyBound_set_key _ _ _ _ hclean1 ?_
      rw [get_set_other _ _ _ _ hk1]
      exact keyBound_get _ _ _ (by rfl) hclean1
    · simp only [JVal.setIn]
      refine keyBound_set_key _ _ _ _ hmem1 ?_
      rw [memberable_set]
      exact keyBound_get _ _ _ (by rfl) hmem1
  · simp only [hr, Bool.false_eq_true, if_false]
    by_cases hex : excluded.contains k
    · simp only [hex, if_true]
      exact ⟨hm, hclean, hmem⟩
    · simp only [hex, Bool.false_eq_true, if_false]
      exact ⟨by simp [hm], keyBound_set_other _ _ _ _ _ hclean hk2,
        keyBound_set_other _ _ _ _ _ hmem hk2⟩

theorem gemini_customFold_preserves (excluded : List String) (ps : List (String × JVal))
    (doc : JVal) (b : Bool)
    (hm : doc.memberable = true) (hclean : gcHasNoMaxOut doc) (hmem : gcMemberable doc)
    (h1 : JVal.jlook ps "maxOutputTokens" = none)
    (h2 : JVal.jlook ps "generationConfig" = none) :
    (ps.foldl (gemini_customStep excluded) (doc, b)).1.memberable = true ∧
    gcHasNoMaxOut (ps.foldl (gemini_customStep excluded) (doc, b)).1 ∧
    gcMemberable (ps.foldl (gemini_customStep excluded) (doc, b)).1 := by
  induction ps generalizing doc b with
  | nil => exact ⟨hm, hclean, hmem⟩
  | cons hd tl ih =>
    obtain ⟨k, v⟩ := hd
    obtain ⟨hk1, htl1⟩ := jlook_none_head tl k v "maxOutputTokens" h1
    obtain ⟨hk2, htl2⟩ := jlook_none_head tl k v "generationConfig" h2
    rw [List.foldl_cons]
    obtain ⟨pm, pclean, pmem⟩ :=
      gemini_customStep_preserves excluded doc b k v hm hclean hmem hk1 hk2
    rcases hsv : gemini_customStep excluded (doc, b) (k, v) with ⟨d2, b2⟩
    rw [hsv] at pm pclean pmem
    exact ih d2 b2 pm pclean pmem htl1 htl2

theorem openai_mergeStep_setlike : ∀ (d : JVal) (kv : String × JVal),
    openai_mergeStep d kv = d ∨ openai_mergeStep d kv = d.set kv.1 kv.2 := by
  intro d kv
  unfold openai_mergeStep
  split
  · exact Or.inr rfl
  · exact Or.inl rfl

theorem openai_streamMergeStep_setlike : ∀ (d : JVal) (kv : String × JVal),
    openai_streamMergeStep d kv = d ∨ openai_streamMergeStep d kv = d.set kv.1 kv.2 := by
  intro d kv
  unfold openai_streamMergeStep
  split
  · exact Or.inr rfl
  · exact Or.inl rfl

theorem claude_mergeStep_setlike : ∀ (d : JVal) (kv : String × JVal),
    claude_mergeStep d kv = d ∨ claude_mergeStep d kv = d.set kv.1 kv.2 := by
  intro d kv
  unfold claude_mergeStep
  split
  · exact Or.inr rfl
  · exact Or.inl rfl

theorem claude_streamMergeStep_setlike : ∀ (d : JVal) (kv : String × JVal),
    claude_streamMergeStep d kv = d ∨ claude_streamMergeStep d kv = d.set kv.1 kv.2 := by
  intro d kv
  unfold claude_streamMergeStep
  split
  · exact Or.inr rfl
  · exact Or.inl rfl

@[simp] theorem openai_merge_memberable (ps : List (String × JVal)) (doc : JVal) :
    (ps.foldl openai_mergeStep doc).memberable = doc.memberable :=
  foldl_setlike_memberable _ openai_mergeStep_setlike ps doc

@[simp] theorem openai_streamMerge_memberable (ps : List (String × JVal)) (doc : JVal) :
    (ps.foldl openai_streamMergeStep doc).memberable = doc.memberable :=
  foldl_setlike_memberable _ openai_streamMergeStep_setlike ps doc

@[simp] theorem claude_merge_memberable (ps : List (String × JVal)) (doc : JVal) :
    (ps.foldl claude_mergeStep doc).memberable = doc.memberable :=
  foldl_setlike_memberable _ claude_mergeStep_setlike ps doc

@[simp] theorem claude_streamMerge_memberable (ps : List (String × JVal)) (doc : JVal) :
    (ps.foldl claude_streamMergeStep doc).memberable = doc.memberable :=
  foldl_setlike_memberable _ claude_streamMergeStep_setlike ps doc

theorem claude_applyToolChoice_get_other (doc : JVal) (tc : String) (K : String)
    (h : K ≠ "tool_choice") : (claude_applyToolChoice doc tc).get K = doc.get K := by
  have h2 : ("tool_choice" : String) ≠ K := fun he => h he.symm
  unfold claude_applyToolChoice
  dsimp only
  repeat' split
  all_goals first
    | rfl
    | rw [get_set_other _ _ _ _ h2]

theorem claude_buildRequestBody_max_tokens (modelName systemRole : String)
    (temperature maxTokens : Int) (userMessage : String) (doc : JVal) (customParams : String)
    (hdoc : doc.memberable = true) :
    (claude_buildRequestBody modelName systemRole temperature maxTokens userMessage doc
        customParams).2.get "max_tokens" =
      JVal.num (if maxTokens > 0 then maxTokens else 1024) := by
  simp only [claude_buildRequestBody]
  rw [get_set_other _ "messages" _ _ (by decide)]
  have hcore : ∀ d : JVal, d.memberable = true →
      ((d.set "max_tokens" (JVal.num (if maxTokens > 0 then maxTokens else 1024))).get
        "max_tokens" = JVal.num (if maxTokens > 0 then maxTokens else 1024)) :=
    fun d hd => get_set_self d _ _ hd
  have hmem : (if temperature ≥ 0 then
      (if customParams.length > 0 then
        (customPairs customParams).foldl claude_mergeStep (doc.set "model" (.str modelName))
       else doc.set "model" (.str modelName)).set "temperature" (.num temperature)
      else (if customParams.length > 0 then
        (customPairs customParams).foldl claude_mergeStep (doc.set "model" (.str modelName))
       else doc.set "model" (.str modelName))).memberable = true := by
    by_cases ht : temperature ≥ 0 <;> by_cases hcp : customParams.length > 0 <;>
      simp [ht, hcp, hdoc]
  by_cases hsys : systemRole.length > 0
  · rw [if_pos hsys, get_set_other _ "system" _ _ (by decide)]
    exact hcore _ hmem
  · rw [if_neg hsys]
    exact hcore _ hmem

theorem claude_buildStreamRequestBody_max_tokens (modelName systemRole : String)
    (temperature maxTokens : Int) (userMessage : String) (doc : JVal) (customParams : String)
    (hdoc : doc.memberable = true) :
    (claude_buildStreamRequestBody modelName systemRole temperature maxTokens userMessage doc
        customParams).2.get "max_tokens" =
      JVal.num (if maxTokens > 0 then maxTokens else 1024) := by
  simp only [claude_buildStreamRequestBody]
  rw [get_set_other _ "messages" _ _ (by decide)]
  have hcore : ∀ d : JVal, d.memberable = true →
      ((d.set "max_tokens" (JVal.num (if maxTokens > 0 then maxTokens else 1024))).get
        "max_tokens" = JVal.num (if maxTokens > 0 then maxTokens else 1024)) :=
    fun d hd => get_set_self d _ _ hd
  have hmem : (if temperature ≥ 0 then
      (if customParams.length > 0 then
        (customPairs customParams).foldl claude_streamMergeStep
          ((doc.set "model" (.str modelName)).set "stream" (.bool true))
       else (doc.set "model" (.str modelName)).set "stream" (.bool true)).set
          "temperature" (.num temperature)
      else (if customParams.length > 0 then
        (customPairs customParams).foldl claude_streamMergeStep
          ((doc.set "model" (.str modelName)).set "stream" (.bool true))
       else (doc.set "model" (.str modelName)).set "stream" (.bool true))).memberable = true := by
    by_cases ht : temperature ≥ 0 <;> by_cases hcp : customParams.length > 0 <;>
      simp [ht, hcp, hdoc]
  by_cases hsys : systemRole.length > 0
  · rw [if_pos hsys, get_set_other _ "system" _ _ (by decide)]
    exact hcore _ hmem
  · rw [if_neg hsys]
    exact hcore _ hmem

theorem claude_buildToolCallsRequestBody_max_tokens (modelName : String)
    (toolsArray : List String) (systemMessage toolChoice : String) (maxTokens : Int)
    (userMessage : String) (doc : JVal) (r : String × JVal)
    (heq : claude_buildToolCallsRequestBody modelName toolsArray systemMessage toolChoice
      maxTokens userMessage doc = some r) :
    r.2.get "max_tokens" = JVal.num (if maxTokens > 0 then maxTokens else 1024) := by
  simp only [claude_buildToolCallsRequestBody] at heq
  cases htools : claude_buildTools toolsArray with
  | none => rw [htools] at heq; simp at heq
  | some tools =>
    rw [htools] at heq
    simp only [Option.some.injEq] at heq
    rw [← heq]
    simp only
    rw [claude_applyToolChoice_get_other _ _ _ (by decide),
      get_set_other _ "messages" _ _ (by decide),
      get_set_other _ "tools" _ _ (by decide)]
    have hcore : ∀ d : JVal, d.memberable = true →
        ((d.set "max_tokens" (JVal.num (if maxTokens > 0 then maxTokens else 1024))).get
          "max_tokens" = JVal.num (if maxTokens > 0 then maxTokens else 1024)) :=
      fun d hd => get_set_self d _ _ hd
    by_cases hsys : systemMessage.length > 0
    · rw [if_pos hsys, get_set_other _ "system" _ _ (by decide)]
      exact hcore _ (by simp)
    · rw [if_neg hsys]
      exact hcore _ (by simp)

theorem gcHasNoMaxOut_get (doc : JVal) (h : gcHasNoMaxOut doc) :
    (doc.get "generationConfig").get "maxOutputTokens" = JVal.null :=
  keyBound_get "generationConfig" (fun v => v.get "maxOutputTokens" = JVal.null) doc rfl h

theorem gcMemberable_get (doc : JVal) (h : gcMemberable doc) :
    (doc.get "generationConfig").memberable = true :=
  keyBound_get "generationConfig" (fun v => v.memberable = true) doc rfl h

theorem gemini_applyGenerationConfig_neg (temperature maxTokens : Int) (doc : JVal)
    (_hm : doc.memberable = true) (hclean : gcHasNoMaxOut doc) (hmt : ¬ maxTokens > 0) :
    ((gemini_applyGenerationConfig temperature maxTokens doc).get "generationConfig").get
      "maxOutputTokens" = JVal.null := by
  unfold gemini_applyGenerationConfig
  dsimp only
  rw [if_neg hmt]
  by_cases hgc : (doc.get "generationConfig").isNull = true
  · rw [if_pos hgc]
    have hclean1 : gcHasNoMaxOut (doc.set "generationConfig" (JVal.obj [])) :=
      keyBound_set_key _ _ _ _ hclean rfl
    by_cases ht : temperature ≥ 0
    · rw [if_pos ht]
      dsimp only
      rw [if_neg (by simp)]
      have h5 : gcHasNoMaxOut ((doc.set "generationConfig" (JVal.obj [])).setIn
          "generationConfig" "temperature" (JVal.num temperature)) := by
        simp only [JVal.setIn]
        refine keyBound_set_key _ _ _ _ hclean1 ?_
        rw [get_set_other _ _ _ _ (by decide)]
        exact gcHasNoMaxOut_get _ hclean1
      exact gcHasNoMaxOut_get _ h5
    · rw [if_neg ht]
      dsimp only
      rw [if_pos (by simp [hgc])]
      exact gcHasNoMaxOut_get _ (keyBound_removeKey _ _ _ _ hclean1)
  · rw [if_neg hgc]
    by_cases ht : temperature ≥ 0
    · rw [if_pos ht]
      dsimp only
      rw [if_neg (by simp)]
      have h5 : gcHasNoMaxOut (doc.setIn "generationConfig" "temperature"
          (JVal.num temperature)) := by
        simp only [JVal.setIn]
        refine keyBound_set_key _ _ _ _ hclean ?_
        rw [get_set_other _ _ _ _ (by decide)]
        exact gcHasNoMaxOut_get _ hclean
      exact gcHasNoMaxOut_get _ h5
    · rw [if_neg ht]
      dsimp only
      rw [if_neg (by simp [hgc])]
      exact gcHasNoMaxOut_get _ hclean

theorem gemini_applyGenerationConfig_pos (temperature maxTokens : Int) (doc : JVal)
    (hm : doc.memberable = true) (hmem : gcMemberable doc) (hmt : maxTokens > 0) :
    ((gemini_applyGenerationConfig temperature maxTokens doc).get "generationConfig").get
      "maxOutputTokens" = JVal.num maxTokens := by
  unfold gemini_applyGenerationConfig
  dsimp only
  rw [if_pos hmt]
  dsimp only
  rw [if_neg (by simp)]
  by_cases hgc : (doc.get "generationConfig").isNull = true
  · rw [if_pos hgc]
    have hm1 : (doc.set "generationConfig" (JVal.obj [])).memberable = true := by simp [hm]
    have hmem1 : gcMemberable (doc.set "generationConfig" (JVal.obj [])) :=
      keyBound_set_key _ _ _ _ hmem rfl
    by_cases ht : temperature ≥ 0
    · rw [if_pos ht]
      dsimp only
      simp only [JVal.setIn]
      have hm2 : ((doc.set "generationConfig" (JVal.obj [])).set "generationConfig"
          (((doc.set "generationConfig" (JVal.obj [])).get "generationConfig").set
            "temperature" (JVal.num temperature))).memberable = true := by simp [hm]
      have hmem2 : gcMemberable ((doc.set "generationConfig" (JVal.obj [])).set
          "generationConfig"
          (((doc.set "generationConfig" (JVal.obj [])).get "generationConfig").set
            "temperature" (JVal.num temperature))) := by
        refine keyBound_set_key _ _ _ _ hmem1 ?_
        rw [memberable_set]
        exact gcMemberable_get _ hmem1
      rw [get_set_self _ _ _ hm2, get_set_self]
      exact gcMemberable_get _ hmem2
    · rw [if_neg ht]
      dsimp only
      simp only [JVal.setIn]
      rw [get_set_self _ _ _ hm1, get_set_self]
      exact gcMemberable_get _ hmem1
  · rw [if_neg hgc]
    by_cases ht : temperature ≥ 0
    · rw [if_pos ht]
      dsimp only
      simp only [JVal.setIn]
      have hm2 : (doc.set "generationConfig"
          ((doc.get "generationConfig").set "temperature" (JVal.num temperature))).memberable
            = true := by simp [hm]
      have hmem2 : gcMemberable (doc.set "generationConfig"
          ((doc.get "generationConfig").set "temperature" (JVal.num temperature))) := by
        refine keyBound_set_key _ _ _ _ hmem ?_
        rw [memberable_set]
        exact gcMemberable_get _ hmem
      rw [get_set_self _ _ _ hm2, get_set_self]
      exact gcMemberable_get _ hmem2
    · rw [if_neg ht]
      dsimp only
      simp only [JVal.setIn]
      rw [get_set_self _ _ _ hm, get_set_self]
      exact gcMemberable_get _ hmem

theorem keyBound_ite (K : String) (P : JVal → Prop) (c : Prop) [Decidable c] (a b : JVal)
    (ha : keyBound K P a) (hb : keyBound K P b) : keyBound K P (if c then a else b) := by
  split
  · exact ha
  · exact hb

theorem memberable_ite (c : Prop) [Decidable c] (a b : JVal)
    (ha : a.memberable = true) (hb : b.memberable = true) :
    (if c then a else b).memberable = true := by
  split
  · exact ha
  · exact hb

theorem gemini_buildRequestBody_maxTokens_neg (modelName systemRole : String)
    (temperature maxTokens : Int) (userMessage : String) (doc : JVal) (customParams : String)
    (hmt : ¬ maxTokens > 0)
    (h1 : JVal.jlook (customPairs customParams) "maxOutputTokens" = none)
    (h2 : JVal.jlook (customPairs customParams) "generationConfig" = none) :
    ((gemini_buildRequestBody modelName systemRole temperature maxTokens userMessage doc
        customParams).2.get "generationConfig").get "maxOutputTokens" = JVal.null := by
  simp only [gemini_buildRequestBody]
  have hgen : ∀ d3 : JVal, d3.memberable = true → gcHasNoMaxOut d3 →
      (((gemini_applyGenerationConfig temperature maxTokens d3).get "generationConfig").get
        "maxOutputTokens" = JVal.null) :=
    fun d3 a b => gemini_applyGenerationConfig_neg _ _ _ a b hmt
  apply hgen
  · by_cases hcp : customParams.length > 0
    · rw [if_pos hcp]
      unfold gemini_customParamsFold
      refine (gemini_customFold_preserves _ _ _ _ ?_ ?_ ?_ h1 h2).1
      · rw [memberable_set]
        exact memberable_ite _ _ _ (by rw [memberable_set]; rfl) rfl
      · exact keyBound_set_other _ _ _ _ _
          (keyBound_ite _ _ _ _ _
            (keyBound_set_other _ _ _ _ _ (keyBound_null _ _) (by decide))
            (keyBound_null _ _)) (by decide)
      · exact keyBound_set_other _ _ _ _ _
          (keyBound_ite _ _ _ _ _
            (keyBound_set_other _ _ _ _ _ (keyBound_null _ _) (by decide))
            (keyBound_null _ _)) (by decide)
    · rw [if_neg hcp]
      rw [memberable_set]
      exact memberable_ite _ _ _ (by rw [memberable_set]; rfl) rfl
  · by_cases hcp : customParams.length > 0
    · rw [if_pos hcp]
      unfold gemini_customParamsFold
      refine (gemini_customFold_preserves _ _ _ _ ?_ ?_ ?_ h1 h2).2.1
      · rw [memberable_set]
        exact memberable_ite _ _ _ (by rw [memberable_set]; rfl) rfl
      · exact keyBound_set_other _ _ _ _ _
          (keyBound_ite _ _ _ _ _
            (keyBound_set_other _ _ _ _ _ (keyBound_null _ _) (by decide))
            (keyBound_null _ _)) (by decide)
      · exact keyBound_set_other _ _ _ _ _
          (keyBound_ite _ _ _ _ _
            (keyBound_set_other _ _ _ _ _ (keyBound_null _ _) (by decide))
            (keyBound_null _ _)) (by decide)
    · rw [if_neg hcp]
      exact keyBound_set_other _ _ _ _ _
        (keyBound_ite _ _ _ _ _
          (keyBound_set_other _ _ _ _ _ (keyBound_null _ _) (by decide))
          (keyBound_null _ _)) (by decide)

theorem gemini_buildRequestBody_maxTokens_pos (modelName systemRole : String)
    (temperature maxTokens : Int) (userMessage : String) (doc : JVal) (customParams : String)
    (hmt : maxTokens > 0)
    (h1 : JVal.jlook (customPairs customParams) "maxOutputTokens" = none)
    (h2 : JVal.jlook (customPairs customParams) "generationConfig" = none) :
    ((gemini_buildRequestBody modelName systemRole temperature maxTokens userMessage doc
        customParams).2.get "generationConfig").get "maxOutputTokens" = JVal.num maxTokens := by
  simp only [gemini_buildRequestBody]
  have hgen : ∀ d3 : JVal, d3.memberable = true → gcMemberable d3 →
      (((gemini_applyGenerationConfig temperature maxTokens d3).get "generationConfig").get
        "maxOutputTokens" = JVal.num maxTokens) :=
    fun d3 a b => gemini_applyGenerationConfig_pos _ _ _ a b hmt
  apply hgen
  · by_cases hcp : customParams.length > 0
    · rw [if_pos hcp]
      unfold gemini_customParamsFold
      refine (gemini_customFold_preserves _ _ _ _ ?_ ?_ ?_ h1 h2).1
      · rw [memberable_set]
        exact memberable_ite _ _ _ (by rw [memberable_set]; rfl) rfl
      · exact keyBound_set_other _ _ _ _ _
          (keyBound_ite _ _ _ _ _
            (keyBound_set_other _ _ _ _ _ (keyBound_null _ _) (by decide))
            (keyBound_null _ _)) (by decide)
      · exact keyBound_set_other _ _ _ _ _
          (keyBound_ite _ _ _ _ _
            (keyBound_set_other _ _ _ _ _ (keyBound_null _ _) (by decide))
            (keyBound_null _ _)) (by decide)
    · rw [if_neg hcp]
      rw [memberable_set]
      exact memberable_ite _ _ _ (by rw [memberable_set]; rfl) rfl
  · by_cases hcp : customParams.length > 0
    · rw [if_pos hcp]
      unfold gemini_customParamsFold
      refine (gemini_customFold_preserves _ _ _ _ ?_ ?_ ?_ h1 h2).2.2
      · rw [memberable_set]
        exact memberable_ite _ _ _ (by rw [memberable_set]; rfl) rfl
      · exact keyBound_set_other _ _ _ _ _
          (keyBound_ite _ _ _ _ _
            (keyBound_set_other _ _ _ _ _ (keyBound_null _ _) (by decide))
            (keyBound_null _ _)) (by decide)
      · exact keyBound_set_other _ _ _ _ _
          (keyBound_ite _ _ _ _ _
            (keyBound_set_other _ _ _ _ _ (keyBound_null _ _) (by decide))
            (keyBound_null _ _)) (by decide)
    · rw [if_neg hcp]
      exact keyBound_set_other _ _ _ _ _
        (keyBound_ite _ _ _ _ _
          (keyBound_set_other _ _ _ _ _ (keyBound_null _ _) (by decide))
          (keyBound_null _ _)) (by decide)

theorem openai_buildRequestBody_maxTokens_neg (modelName systemRole : String)
    (temperature maxTokens : Int) (userMessage : String) (doc : JVal) (customParams : String)
    (hmt : ¬ maxTokens > 0)
    (hoai : JVal.jlook (customPairs customParams) "max_completion_tokens" = none) :
    (openai_buildRequestBody modelName systemRole temperature maxTokens userMessage doc
        customParams).2.get "max_completion_tokens" = JVal.null := by
  simp only [openai_buildRequestBody]
  rw [if_neg hmt]
  have hbase : ∀ d : JVal,
      (if customParams.length > 0 then (customPairs customParams).foldl openai_mergeStep d
       else d).get "max_completion_tokens" = d.get "max_completion_tokens" := by
    intro d
    by_cases hcp : customParams.length > 0
    · rw [if_pos hcp]
      exact foldl_setlike_get_preserved _ openai_mergeStep_setlike _ _ _ hoai
    · rw [if_neg hcp]
  by_cases ht : temperature ≥ 0
  · rw [if_pos ht, get_set_other _ "temperature" _ _ (by decide), hbase,
      get_set_other _ "messages" _ _ (by decide), get_set_other _ "model" _ _ (by decide)]
    rfl
  · rw [if_neg ht, hbase, get_set_other _ "messages" _ _ (by decide),
      get_set_other _ "model" _ _ (by decide)]
    rfl

theorem openai_buildRequestBody_maxTokens_pos (modelName systemRole : String)
    (temperature maxTokens : Int) (userMessage : String) (doc : JVal) (customParams : String)
    (hmt : maxTokens > 0) :
    (openai_buildRequestBody modelName systemRole temperature maxTokens userMessage doc
        customParams).2.get "max_completion_tokens" = JVal.num maxTokens := by
  simp only [openai_buildRequestBody]
  rw [if_pos hmt]
  rw [get_set_self]
  by_cases ht : temperature ≥ 0 <;> by_cases hcp : customParams.length > 0 <;>
    simp [ht, hcp]

/-- C1 counterexample: with `maxTokens <= 0` the OpenAI and Gemini chat bodies do
NOT always omit the max-token field — a user-supplied custom parameter injects
it: OpenAI merges `max_completion_tokens` from `_customParams`
(AI_API_OpenAI.cpp:44-53) and Gemini routes `maxOutputTokens` from custom
parameters into `generationConfig` (AI_API_Gemini.cpp:66-96), where it
survives the `configAdded` cleanup (AI_API_Gemini.cpp:103-127). -/
theorem c1_counterexample :
    ((openai_buildRequestBody "m" "" (-1) 0 "hi" JVal.null
        "\x7b\"max_completion_tokens\":5\x7d").2.get "max_completion_tokens" = JVal.num 5
      ∧ JVal.num 5 ≠ JVal.null)
    ∧ (((gemini_buildRequestBody "m" "" (-1) 0 "hi" JVal.null
        "\x7b\"maxOutputTokens\":7\x7d").2.get "generationConfig").get "maxOutputTokens"
          = JVal.num 7
      ∧ JVal.num 7 ≠ JVal.null) :=
  ⟨⟨rfl, by intro h; injection h⟩, ⟨rfl, by intro h; injection h⟩⟩

/-- C1 (amended): provided the shared request document root is writable for the
Claude builders (they do not clear it, so a non-object root would reject member
writes) and the custom-parameter string does not itself supply a max-token
field (`max_completion_tokens` for OpenAI; `maxOutputTokens` or a whole
`generationConfig` for Gemini), the Claude adapter's buildRequestBody, its
stream variant and its tool-call variant always emit
`max_tokens = if maxTokens > 0 then maxTokens else 1024`; for `maxTokens <= 0`
the OpenAI body carries no `max_completion_tokens` and the Gemini body carries
no `generationConfig.maxOutputTokens`, while for `maxTokens > 0` both carry the
provided value. -/
theorem c1_maxTokens_defaulting (modelName systemRole : String)
    (temperature maxTokens : Int) (userMessage : String) (doc : JVal)
    (customParams : String) (toolsArray : List String)
    (systemMessage toolChoice : String) (r : String × JVal)
    (hdoc : doc.memberable = true)
    (hoai : JVal.jlook (customPairs customParams) "max_completion_tokens" = none)
    (hg1 : JVal.jlook (customPairs customParams) "maxOutputTokens" = none)
    (hg2 : JVal.jlook (customPairs customParams) "generationConfig" = none)
    (heq : claude_buildToolCallsRequestBody modelName toolsArray systemMessage toolChoice
      maxTokens userMessage doc = some r) :
    ((claude_buildRequestBody modelName systemRole temperature maxTokens userMessage doc
        customParams).2.get "max_tokens" =
      JVal.num (if maxTokens > 0 then maxTokens else 1024))
    ∧ ((claude_buildStreamRequestBody modelName systemRole temperature maxTokens userMessage
        doc customParams).2.get "max_tokens" =
      JVal.num (if maxTokens > 0 then maxTokens else 1024))
    ∧ (r.2.get "max_tokens" = JVal.num (if maxTokens > 0 then maxTokens else 1024))
    ∧ (¬ maxTokens > 0 →
        (openai_buildRequestBody modelName systemRole temperature maxTokens userMessage doc
          customParams).2.get "max_completion_tokens" = JVal.null)
    ∧ (maxTokens > 0 →
        (openai_buildRequestBody modelName systemRole temperature maxTokens userMessage doc
          customParams).2.get "max_completion_tokens" = JVal.num maxTokens)
    ∧ (¬ maxTokens > 0 →
        ((gemini_buildRequestBody modelName systemRole temperature maxTokens userMessage doc
          customParams).2.get "generationConfig").get "maxOutputTokens" = JVal.null)
    ∧ (maxTokens > 0 →
        ((gemini_buildRequestBody modelName systemRole temperature maxTokens userMessage doc
          customParams).2.get "generationConfig").get "maxOutputTokens"
            = JVal.num maxTokens) :=
  ⟨claude_buildRequestBody_max_tokens modelName systemRole temperature maxTokens userMessage
      doc customParams hdoc,
   claude_buildStreamRequestBody_max_tokens modelName systemRole temperature maxTokens
      userMessage doc customParams hdoc,
   claude_buildToolCallsRequestBody_max_tokens modelName toolsArray systemMessage toolChoice
      maxTokens userMessage doc r heq,
   fun hmt => openai_buildRequestBody_maxTokens_neg modelName systemRole temperature maxTokens
      userMessage doc customParams hmt hoai,
   fun hmt => openai_buildRequestBody_maxTokens_pos modelName systemRole temperature maxTokens
      userMessage doc customParams hmt,
   fun hmt => gemini_buildRequestBody_maxTokens_neg modelName systemRole temperature maxTokens
      userMessage doc customParams hmt hg1 hg2,
   fun hmt => gemini_buildRequestBody_maxTokens_pos modelName systemRole temperature maxTokens
      userMessage doc customParams hmt hg1 hg2⟩

/-- C1 witness: the amended theorem applied at concrete inputs (model "m",
empty system role, temperature -1, maxTokens 0, one concrete tool, empty
custom parameters, null document root). -/
theorem c1_maxTokens_defaulting_witness :
    JVal.null.memberable = true
    ∧ JVal.jlook (customPairs "") "max_completion_tokens" = none
    ∧ JVal.jlook (customPairs "") "maxOutputTokens" = none
    ∧ JVal.jlook (customPairs "") "generationConfig" = none
    ∧ claude_buildToolCallsRequestBody "m" [demoToolJson] "" "auto" 0 "hi" JVal.null =
        some ((claude_buildToolCallsRequestBody "m" [demoToolJson] "" "auto" 0 "hi"
          JVal.null).getD ("", JVal.null))
    ∧ (((claude_buildRequestBody "m" "" (-1) 0 "hi" JVal.null "").2.get "max_tokens" =
          JVal.num (if (0:Int) > 0 then 0 else 1024))
      ∧ ((claude_buildStreamRequestBody "m" "" (-1) 0 "hi" JVal.null "").2.get "max_tokens" =
          JVal.num (if (0:Int) > 0 then 0 else 1024))
      ∧ (((claude_buildToolCallsRequestBody "m" [demoToolJson] "" "auto" 0 "hi"
            JVal.null).getD ("", JVal.null)).2.get "max_tokens" =
          JVal.num (if (0:Int) > 0 then 0 else 1024))
      ∧ (¬ (0:Int) > 0 →
          (openai_buildRequestBody "m" "" (-1) 0 "hi" JVal.null "").2.get
            "max_completion_tokens" = JVal.null)
      ∧ ((0:Int) > 0 →
          (openai_buildRequestBody "m" "" (-1) 0 "hi" JVal.null "").2.get
            "max_completion_tokens" = JVal.num 0)
      ∧ (¬ (0:Int) > 0 →
          ((gemini_buildRequestBody "m" "" (-1) 0 "hi" JVal.null "").2.get
            "generationConfig").get "maxOutputTokens" = JVal.null)
      ∧ ((0:Int) > 0 →
          ((gemini_buildRequestBody "m" "" (-1) 0 "hi" JVal.null "").2.get
            "generationConfig").get "maxOutputTokens" = JVal.num 0)) :=
  ⟨rfl, rfl, rfl, rfl, rfl,
   c1_maxTokens_defaulting "m" "" (-1) 0 "hi" JVal.null "" [demoToolJson] "" "auto"
     ((claude_buildToolCallsRequestBody "m" [demoToolJson] "" "auto" 0 "hi"
       JVal.null).getD ("", JVal.null)) rfl rfl rfl rfl rfl⟩

theorem setPair_append (acc : List (String × JVal)) (k : String) (x : JVal)
    (h : k ∉ acc.map Prod.fst) : JVal.setPair acc k x = acc ++ [(k, x)] := by
  induction acc with
  | nil => rfl
  | cons kv rest ih =>
    rcases kv with ⟨k0, v0⟩
    simp only [List.map_cons, List.mem_cons, not_or] at h
    simp only [JVal.setPair, List.cons_append]
    rw [if_neg (fun he => h.1 he.symm), ih h.2]

theorem copyPairsInto_obj (ps : List (String × JVal)) :
    ∀ acc : List (String × JVal),
    (∀ k ∈ ps.map Prod.fst, k ∉ acc.map Prod.fst) →
    (ps.map Prod.fst).Nodup →
    copyPairsInto (JVal.obj acc) ps = JVal.obj (acc ++ ps) := by
  induction ps with
  | nil => intro acc _ _; simp [copyPairsInto]
  | cons kv rest ih =>
    intro acc hd hn
    rcases kv with ⟨k, v⟩
    simp only [copyPairsInto, List.foldl_cons]
    have hset : (JVal.obj acc).set k v = JVal.obj (acc ++ [(k, v)]) := by
      show JVal.obj (JVal.setPair acc k v) = _
      rw [setPair_append acc k v (hd k (by simp))]
    rw [hset]
    have hd2 : ∀ k2 ∈ rest.map Prod.fst, k2 ∉ (acc ++ [(k, v)]).map Prod.fst := by
      intro k2 hk2
      have h1 : k2 ∉ acc.map Prod.fst := hd k2 (by simp [hk2])
      have h2 : k2 ≠ k := by
        intro he
        subst he
        exact (List.nodup_cons.mp (by simpa using hn)).1 hk2
      simp [h1, h2]
    have hn2 : (rest.map Prod.fst).Nodup := (List.nodup_cons.mp (by simpa using hn)).2
    have := ih (acc ++ [(k, v)]) hd2 hn2
    simp only [copyPairsInto] at this
    rw [this]
    simp

theorem copyPairsInto_nil (ps : List (String × JVal)) (hn : (ps.map Prod.fst).Nodup) :
    copyPairsInto (JVal.obj []) ps = JVal.obj ps := by
  simpa using copyPairsInto_obj ps [] (by simp) hn

theorem copyParamsLoop_go (ps : List (String × JVal)) :
    ∀ acc : List (String × JVal),
    (∀ k ∈ ps.map Prod.fst, k ∉ acc.map Prod.fst) →
    (ps.map Prod.fst).Nodup →
    (∀ kv ∈ ps, subKeysOk kv.2 = true) →
    List.foldl copyParamsStep (JVal.obj acc) ps = JVal.obj (acc ++ ps) := by
  induction ps with
  | nil => intro acc _ _ _; simp
  | cons kv rest ih =>
    intro acc hd hn hs
    rcases kv with ⟨k, v⟩
    rw [List.foldl_cons]
    have hstep : copyParamsStep (JVal.obj acc) (k, v) = JVal.obj (acc ++ [(k, v)]) := by
      cases v
      case obj sub =>
        have hsub : subKeysOk (JVal.obj sub) = true := hs (k, JVal.obj sub) (by simp)
        simp only [subKeysOk, decide_eq_true_eq] at hsub
        simp only [copyParamsStep, JVal.set]
        rw [copyPairsInto_nil sub hsub, setPair_append acc k _ (hd k (by simp))]
      all_goals
        simp only [copyParamsStep, JVal.set]
        rw [setPair_append acc k _ (hd k (by simp))]
    rw [hstep]
    have hd2 : ∀ k2 ∈ rest.map Prod.fst, k2 ∉ (acc ++ [(k, v)]).map Prod.fst := by
      intro k2 hk2
      have h1 : k2 ∉ acc.map Prod.fst := hd k2 (by simp [hk2])
      have h2 : k2 ≠ k := by
        intro he
        subst he
        exact (List.nodup_cons.mp (by simpa using hn)).1 hk2
      simp [h1, h2]
    have hn2 : (rest.map Prod.fst).Nodup := (List.nodup_cons.mp (by simpa using hn)).2
    have hs2 : ∀ kv2 ∈ rest, subKeysOk kv2.2 = true := fun kv2 hkv2 => hs kv2 (by simp [hkv2])
    rw [ih (acc ++ [(k, v)]) hd2 hn2 hs2]
    simp

theorem copyParamsLoop_eq (ps : List (String × JVal)) (hwf : toolParamsWf ps = true) :
    copyParamsLoop ps = JVal.obj ps := by
  simp only [toolParamsWf, Bool.and_eq_true, decide_eq_true_eq, List.all_eq_true] at hwf
  have := copyParamsLoop_go ps [] (by simp) hwf.1 hwf.2
  simpa [copyParamsLoop] using this

/-- C5: a tool given in the simple form (name, description, parameters) and
in the OpenAI-wrapped form (type "function" with a nested function object)
normalizes to the same wire output for each of the three vendors, provided
the parameters schema has no duplicate keys at the levels the copy loops
special-case; the outputs are equal JSON values, hence structurally
equivalent. -/
theorem c5_tool_form_equivalence (name desc : String) (pfs : List (String × JVal))
    (hwf : toolParamsWf pfs = true) :
    claude_convertTool (simpleToolForm name desc pfs)
      = claude_convertTool (openaiWrappedToolForm name desc pfs)
    ∧ openai_convertTool (simpleToolForm name desc pfs)
      = openai_convertTool (openaiWrappedToolForm name desc pfs)
    ∧ gemini_convertTool (simpleToolForm name desc pfs)
      = gemini_convertTool (openaiWrappedToolForm name desc pfs) := by
  have hn : (pfs.map Prod.fst).Nodup := by
    simp only [toolParamsWf, Bool.and_eq_true, decide_eq_true_eq] at hwf
    exact hwf.1
  have h1 : copyPairsInto (JVal.obj []) pfs = JVal.obj pfs := copyPairsInto_nil pfs hn
  have h2 : copyParamsLoop pfs = JVal.obj pfs := copyParamsLoop_eq pfs hwf
  refine ⟨rfl, ?_, rfl⟩
  show JVal.obj [("type", JVal.str "function"),
      ("function", JVal.obj [("name", JVal.str name), ("description", JVal.str desc),
        ("parameters", copyPairsInto (JVal.obj []) pfs)])]
    = JVal.obj [("type", JVal.str "function"),
      ("function", JVal.obj [("name", JVal.str name), ("description", JVal.str desc),
        ("parameters", copyParamsLoop pfs)])]
  rw [h1, h2]

/-- C5 witness: the equivalence applied to a concrete weather-style tool. -/
theorem c5_tool_form_equivalence_witness :
    toolParamsWf demoParamsList = true
    ∧ (claude_convertTool (simpleToolForm "t" "d" demoParamsList)
        = claude_convertTool (openaiWrappedToolForm "t" "d" demoParamsList)
      ∧ openai_convertTool (simpleToolForm "t" "d" demoParamsList)
        = openai_convertTool (openaiWrappedToolForm "t" "d" demoParamsList)
      ∧ gemini_convertTool (simpleToolForm "t" "d" demoParamsList)
        = gemini_convertTool (openaiWrappedToolForm "t" "d" demoParamsList)) :=
  ⟨rfl, c5_tool_form_equivalence "t" "d" demoParamsList rfl⟩

theorem parser_serializer_sanity :
    parseJson "\x7b\"a\": [1, -2, \"x\"], \"b\": \x7b\x7d\x7d" =
      some (.obj [("a", .arr [.num 1, .num (-2), .str "x"]), ("b", .obj [])])
    ∧ serializeJson (.obj [("a", .num 1), ("b", .arr [.str "x"])]) =
      "\x7b\"a\":1,\"b\":[\"x\"]\x7d"
    ∧ strTrim "  hi\n" = "hi"
    ∧ strIndexOf "data: [DONE]" "[DONE]" = 6
    ∧ equalsIgnoreCase "ReQuIrEd" "required" = true :=
  ⟨rfl, rfl, rfl, rfl, rfl⟩
